import Mathlib

/-!
# JVM compiler-flag constraint functions: a shallow embedding

This file embeds the constraint functions of
`src/hotspot/share/runtime/flags/jvmFlagConstraintsCompiler.cpp` and proves
properties of the constraint-and-repair engine they implement.

Modelling conventions:
* `intx`/`int64_t` values are modelled as `Int`; `uintx`/`uint` values as
  `Nat`.  On every reachable path of the modelled functions the 64-bit C++
  arithmetic stays far inside the `int64` range (the largest intermediate is
  `INT_MAX * 100 ≈ 2.1e11`), so no wrap-around modelling is needed; the cast
  `(uintx)x` of a signed value is modelled exactly as `x mod 2^64`.
* C++ `%` and `/` on signed integers truncate towards zero, so they are
  modelled by `Int.tmod` / `Int.tdiv`.
* The global flag variables read and written by the functions are gathered in
  an explicit `Store`; each function takes the store and returns the
  (possibly updated) store together with its `JVMFlag.Error` result.
* The repair mode is the global flag `VerifyFlagConstraints` (a `Store`
  field): `true` is the spec's AutoRepair mode, `false` is Strict mode.
* Build-time platform conditions (`#if` / `#ifdef` and platform constants
  such as `wordSize`, `relocInfo::addr_unit()`,
  `InvocationCounter::count_shift`) become fields of a `Platform` record.
* `JVMFlag::printError` output is not modelled except where a claim is about
  it: `TypeProfileLevelConstraintFunc` additionally returns the digit
  position named by its violation message (`none` for the
  too-many-digits message), and `LoopStripMiningIterConstraintFunc`
  additionally returns whether it invoked `printError`.
-/

namespace JVMFlag

/-- Result codes of a constraint function (`JVMFlag::Error`); only the two
codes used in this translation unit are modelled. -/
inductive Error where
  | SUCCESS
  | VIOLATES_CONSTRAINT
deriving Repr, DecidableEq

end JVMFlag

/-- The global flag variables read or written by the constraint functions of
`jvmFlagConstraintsCompiler.cpp`, plus the `FLAG_IS_DEFAULT` bits consulted
by `LoopStripMiningIterConstraintFunc`.  `VerifyFlagConstraints` is the
repair-mode switch (AutoRepair when `true`, Strict when `false`). -/
structure Store where
  CICompilerCount : Int
  AllocatePrefetchDistance : Int
  AllocatePrefetchStyle : Int
  AllocatePrefetchStepSize : Int
  AllocatePrefetchInstr : Int
  CompileThreshold : Int
  OnStackReplacePercentage : Int
  ProfileInterpreter : Bool
  InterpreterProfilePercentage : Int
  CodeCacheSegmentSize : Nat
  CodeEntryAlignment : Int
  OptoLoopAlignment : Int
  InteriorEntryAlignment : Int
  MaxNodeLimit : Int
  NodeLimitFudgeFactor : Int
  TypeProfileLevel : Nat
  RTMTotalCountIncrRate : Int
  UseRTMLocking : Bool
  UseCountedLoopSafepoints : Bool
  LoopStripMiningIter : Nat
  UseCountedLoopSafepointsIsDefault : Bool
  LoopStripMiningIterIsDefault : Bool
  VerifyFlagConstraints : Bool
deriving Repr, DecidableEq

attribute [ext] Store

/-- Build-time platform configuration: the preprocessor conditions and
platform constants that the constraint functions depend on. -/
structure Platform where
  /-- `wordSize` (bytes per machine word). -/
  wordSize : Int
  /-- `relocInfo::addr_unit()`. -/
  addrUnit : Int
  /-- `InvocationCounter::count_shift`. -/
  countShift : Nat
  /-- `BytesPerLong`. -/
  bytesPerLong : Int
  /-- `defined(X86)`. -/
  x86 : Bool
  /-- `defined(AMD64)`. -/
  amd64 : Bool
  /-- `defined(S390)`. -/
  s390 : Bool
  /-- `COMPILER1_OR_COMPILER2`. -/
  compiler1or2 : Bool
  /-- `CompilerConfig::is_tiered()`. -/
  tiered : Bool
  /-- `CompilerConfig::is_interpreter_only()`. -/
  interpreterOnly : Bool
  /-- `ifdef COMPILER2`. -/
  compiler2 : Bool
  /-- `INCLUDE_RTM_OPT`. -/
  includeRTMopt : Bool
deriving Repr, DecidableEq

/-- `INT_MAX` (32-bit). -/
def INT_MAX : Int := 2147483647

/-- `max_intx` (64-bit `INT64_MAX`). -/
def max_intx : Int := 9223372036854775807

/-- `INT_MAX >> shift` (arithmetic shift of a positive value, hence equal to
the unsigned shift). -/
def intMaxShifted (shift : Nat) : Int := ((2147483647 >>> shift : Nat) : Int)

/-- The C++ cast `(uintx)x` of a signed 64-bit value. -/
def uintxOfIntx (x : Int) : Nat := (x % (2 ^ 64 : Int)).toNat

/-- `is_power_of_2` from `utilities/powerOfTwo.hpp`:
`(x > T(0)) && ((x & (x - 1)) == T(0))`.  For `x > 0` the signed bitwise-and
coincides with the `Nat` one, so the guard lets us state it over `x.toNat`. -/
def is_power_of_2 (x : Int) : Bool :=
  decide (0 < x) && (x.toNat &&& (x.toNat - 1) == 0)

/-- `round_down_power_of_2` from `utilities/powerOfTwo.hpp`:
`T(1) << log2i(value)`; its precondition (assert) is `value > 0`, and the
function is totalised here (callers below are only relied on for positive
arguments). -/
def round_down_power_of_2 (x : Int) : Int :=
  ((1 <<< Nat.log2 x.toNat : Nat) : Int)

/-- `CICompilerCountConstraintFunc`.  With compilers present
(`COMPILER1_OR_COMPILER2`) the minimum thread count is 2 (tiered), 1
(compiled, non-tiered) or 0 (interpreter only); without compilers any
positive count is rejected (or repaired to -1) and the minimum is 0. -/
def CICompilerCountConstraintFunc (p : Platform) (value : Int) (s : Store) :
    JVMFlag.Error × Store :=
  let min_number_of_compiler_threads : Int :=
    if p.compiler1or2 then
      (if p.tiered then 2 else if !p.interpreterOnly then 1 else 0)
    else 0
  if !p.compiler1or2 && value > 0 then
    if s.VerifyFlagConstraints then
      (JVMFlag.Error.SUCCESS, { s with CICompilerCount := -1 })
    else
      (JVMFlag.Error.VIOLATES_CONSTRAINT, s)
  else if value < min_number_of_compiler_threads then
    if s.VerifyFlagConstraints then
      (JVMFlag.Error.SUCCESS,
        { s with CICompilerCount := min_number_of_compiler_threads })
    else
      (JVMFlag.Error.VIOLATES_CONSTRAINT, s)
  else
    (JVMFlag.Error.SUCCESS, s)

/-- `AllocatePrefetchDistanceConstraintFunc`: range `[0, 512]`; repair sets
`1` below and `512` above. -/
def AllocatePrefetchDistanceConstraintFunc (value : Int) (s : Store) :
    JVMFlag.Error × Store :=
  if value < 0 || value > 512 then
    if s.VerifyFlagConstraints then
      (JVMFlag.Error.SUCCESS,
        { s with AllocatePrefetchDistance := if value < 0 then 1 else 512 })
    else
      (JVMFlag.Error.VIOLATES_CONSTRAINT, s)
  else
    (JVMFlag.Error.SUCCESS, s)

/-- `AllocatePrefetchStepSizeConstraintFunc`: when `AllocatePrefetchStyle`
is 3 the value must be a multiple of `wordSize`; repair subtracts the
remainder, substituting `wordSize` for a zero result. -/
def AllocatePrefetchStepSizeConstraintFunc (p : Platform) (value : Int)
    (s : Store) : JVMFlag.Error × Store :=
  if s.AllocatePrefetchStyle == 3 then
    if value.tmod p.wordSize != 0 then
      if s.VerifyFlagConstraints then
        let stepSize := value - value.tmod p.wordSize
        let stepSize := if stepSize == 0 then p.wordSize else stepSize
        (JVMFlag.Error.SUCCESS, { s with AllocatePrefetchStepSize := stepSize })
      else
        (JVMFlag.Error.VIOLATES_CONSTRAINT, s)
    else
      (JVMFlag.Error.SUCCESS, s)
  else
    (JVMFlag.Error.SUCCESS, s)

/-- `AllocatePrefetchInstrConstraintFunc`: range `[0, max_value]` with
`max_value = 3` on X86 and `max_intx` elsewhere; repair clamps to the
violated bound. -/
def AllocatePrefetchInstrConstraintFunc (p : Platform) (value : Int)
    (s : Store) : JVMFlag.Error × Store :=
  let max_value : Int := if p.x86 then 3 else max_intx
  if value < 0 || value > max_value then
    if s.VerifyFlagConstraints then
      (JVMFlag.Error.SUCCESS,
        { s with AllocatePrefetchInstr := if value < 0 then 0 else max_value })
    else
      (JVMFlag.Error.VIOLATES_CONSTRAINT, s)
  else
    (JVMFlag.Error.SUCCESS, s)

/-- `CompileThresholdConstraintFunc`: range
`[0, INT_MAX >> InvocationCounter::count_shift]`; repair clamps to the
violated bound. -/
def CompileThresholdConstraintFunc (p : Platform) (value : Int) (s : Store) :
    JVMFlag.Error × Store :=
  if value < 0 || value > intMaxShifted p.countShift then
    if s.VerifyFlagConstraints then
      (JVMFlag.Error.SUCCESS,
        { s with CompileThreshold :=
            if value < 0 then 0 else intMaxShifted p.countShift })
    else
      (JVMFlag.Error.VIOLATES_CONSTRAINT, s)
  else
    (JVMFlag.Error.SUCCESS, s)

/-- `OnStackReplacePercentageConstraintFunc`.  It first re-runs
`CompileThresholdConstraintFunc` on the store's `CompileThreshold` (which,
in AutoRepair mode, repairs that flag and returns `SUCCESS`), then checks
the value against a derived bound computed in `int64_t` arithmetic. -/
def OnStackReplacePercentageConstraintFunc (p : Platform) (value : Int)
    (s : Store) : JVMFlag.Error × Store :=
  let dep := CompileThresholdConstraintFunc p s.CompileThreshold s
  if dep.1 == JVMFlag.Error.VIOLATES_CONSTRAINT then
    (JVMFlag.Error.VIOLATES_CONSTRAINT, dep.2)
  else
    let s := dep.2
    let limit0 : Int :=
      if !s.ProfileInterpreter then intMaxShifted p.countShift else INT_MAX
    let limit : Int :=
      if s.CompileThreshold == 0 then limit0 * 100
      else (limit0 * 100).tdiv s.CompileThreshold
    if s.ProfileInterpreter then
      if value < s.InterpreterProfilePercentage then
        if s.VerifyFlagConstraints then
          (JVMFlag.Error.SUCCESS,
            { s with OnStackReplacePercentage := s.InterpreterProfilePercentage })
        else
          (JVMFlag.Error.VIOLATES_CONSTRAINT, s)
      else
        let limit := limit + s.InterpreterProfilePercentage
        if value > limit then
          if s.VerifyFlagConstraints then
            (JVMFlag.Error.SUCCESS, { s with OnStackReplacePercentage := limit })
          else
            (JVMFlag.Error.VIOLATES_CONSTRAINT, s)
        else
          (JVMFlag.Error.SUCCESS, s)
    else
      if value < 0 then
        if s.VerifyFlagConstraints then
          (JVMFlag.Error.SUCCESS, { s with OnStackReplacePercentage := 0 })
        else
          (JVMFlag.Error.VIOLATES_CONSTRAINT, s)
      else if value > limit then
        if s.VerifyFlagConstraints then
          (JVMFlag.Error.SUCCESS, { s with OnStackReplacePercentage := limit })
        else
          (JVMFlag.Error.VIOLATES_CONSTRAINT, s)
      else
        (JVMFlag.Error.SUCCESS, s)

/-- `CodeCacheSegmentSizeConstraintFunc`: validates the store's globals only
(the `value` argument is unused in the source, matched here by ignoring
it); no repair branch (`CodeCacheSegmentSize` is not a production
parameter). -/
def CodeCacheSegmentSizeConstraintFunc (p : Platform) (_value : Nat)
    (s : Store) : JVMFlag.Error × Store :=
  if s.CodeCacheSegmentSize < uintxOfIntx s.CodeEntryAlignment then
    (JVMFlag.Error.VIOLATES_CONSTRAINT, s)
  else if s.CodeCacheSegmentSize < 8 then
    (JVMFlag.Error.VIOLATES_CONSTRAINT, s)
  else if p.compiler2 && s.CodeCacheSegmentSize < uintxOfIntx s.OptoLoopAlignment then
    (JVMFlag.Error.VIOLATES_CONSTRAINT, s)
  else
    (JVMFlag.Error.SUCCESS, s)

/-- `CodeEntryAlignmentConstraintFunc`: the power-of-two check is on the
`value` argument, the remaining checks are on the store's globals; no
repair branch (not a production parameter). -/
def CodeEntryAlignmentConstraintFunc (value : Int) (s : Store) :
    JVMFlag.Error × Store :=
  if !is_power_of_2 value then
    (JVMFlag.Error.VIOLATES_CONSTRAINT, s)
  else if s.CodeEntryAlignment < 16 then
    (JVMFlag.Error.VIOLATES_CONSTRAINT, s)
  else if uintxOfIntx s.CodeEntryAlignment > s.CodeCacheSegmentSize then
    (JVMFlag.Error.VIOLATES_CONSTRAINT, s)
  else
    (JVMFlag.Error.SUCCESS, s)

/-- `OptoLoopAlignmentConstraintFunc`: power of two, multiple of
`relocInfo::addr_unit()`, and at most `CodeEntryAlignment`; in AutoRepair
mode each failed check fixes the working value in sequence and the final
value is written back. -/
def OptoLoopAlignmentConstraintFunc (p : Platform) (value : Int) (s : Store) :
    JVMFlag.Error × Store :=
  let vfc := s.VerifyFlagConstraints
  if !is_power_of_2 value && !vfc then
    (JVMFlag.Error.VIOLATES_CONSTRAINT, s)
  else
    let failed1 := !is_power_of_2 value
    let v1 := if failed1 then round_down_power_of_2 value else value
    if v1.tmod p.addrUnit != 0 && !vfc then
      (JVMFlag.Error.VIOLATES_CONSTRAINT, s)
    else
      let failed2 := failed1 || v1.tmod p.addrUnit != 0
      let v2 := if v1.tmod p.addrUnit != 0 then v1 - v1.tmod p.addrUnit else v1
      if v2 > s.CodeEntryAlignment && !vfc then
        (JVMFlag.Error.VIOLATES_CONSTRAINT, s)
      else
        let failed3 := failed2 || v2 > s.CodeEntryAlignment
        let v3 := if v2 > s.CodeEntryAlignment then s.CodeEntryAlignment else v2
        if failed3 then
          (JVMFlag.Error.SUCCESS, { s with OptoLoopAlignment := v3 })
        else
          (JVMFlag.Error.SUCCESS, s)

/-- `ArraycopyDstPrefetchDistanceConstraintFunc`: `value < 4032`, no repair
branch (Sparc-only parameter). -/
def ArraycopyDstPrefetchDistanceConstraintFunc (value : Nat) (s : Store) :
    JVMFlag.Error × Store :=
  if value ≥ 4032 then (JVMFlag.Error.VIOLATES_CONSTRAINT, s)
  else (JVMFlag.Error.SUCCESS, s)

/-- `AVX3ThresholdConstraintFunc`: zero or a power of two, no repair branch
(not a production parameter). -/
def AVX3ThresholdConstraintFunc (value : Int) (s : Store) :
    JVMFlag.Error × Store :=
  if value != 0 && !is_power_of_2 value then
    (JVMFlag.Error.VIOLATES_CONSTRAINT, s)
  else (JVMFlag.Error.SUCCESS, s)

/-- `ArraycopySrcPrefetchDistanceConstraintFunc`: `value < 4032`, no repair
branch (Sparc-only parameter). -/
def ArraycopySrcPrefetchDistanceConstraintFunc (value : Nat) (s : Store) :
    JVMFlag.Error × Store :=
  if value ≥ 4032 then (JVMFlag.Error.VIOLATES_CONSTRAINT, s)
  else (JVMFlag.Error.SUCCESS, s)

/-- `TypeProfileLevelConstraintFunc`: three decimal digits, each at most 2,
no digits beyond the third; repair clamps each digit to 2, drops excess
digits and re-encodes.  The third component is the digit position named by
the Strict-mode violation message (`none` for the too-many-digits
message or on success). -/
def TypeProfileLevelConstraintFunc (value : Nat) (s : Store) :
    JVMFlag.Error × Store × Option Nat :=
  let vfc := s.VerifyFlagConstraints
  let d0 := value % 10
  if d0 > 2 && !vfc then
    (JVMFlag.Error.VIOLATES_CONSTRAINT, s, some 0)
  else
    let v1 := value / 10
    let d1 := v1 % 10
    if d1 > 2 && !vfc then
      (JVMFlag.Error.VIOLATES_CONSTRAINT, s, some 1)
    else
      let v2 := v1 / 10
      let d2 := v2 % 10
      if d2 > 2 && !vfc then
        (JVMFlag.Error.VIOLATES_CONSTRAINT, s, some 2)
      else
        let v3 := v2 / 10
        if v3 != 0 && !vfc then
          (JVMFlag.Error.VIOLATES_CONSTRAINT, s, none)
        else if d0 > 2 || d1 > 2 || d2 > 2 || v3 != 0 then
          let s0 := if d0 > 2 then 2 else d0
          let s1 := if d1 > 2 then 2 else d1
          let s2 := if d2 > 2 then 2 else d2
          (JVMFlag.Error.SUCCESS,
            { s with TypeProfileLevel := s0 + s1 * 10 + s2 * 100 }, none)
        else
          (JVMFlag.Error.SUCCESS, s, none)

/-- `VerifyIterativeGVNConstraintFunc`: two decimal digits, each at most 1,
no digits beyond the second; no repair branch. -/
def VerifyIterativeGVNConstraintFunc (value : Nat) (s : Store) :
    JVMFlag.Error × Store :=
  if value % 10 > 1 then
    (JVMFlag.Error.VIOLATES_CONSTRAINT, s)
  else if (value / 10) % 10 > 1 then
    (JVMFlag.Error.VIOLATES_CONSTRAINT, s)
  else if value / 10 / 10 != 0 then
    (JVMFlag.Error.VIOLATES_CONSTRAINT, s)
  else
    (JVMFlag.Error.SUCCESS, s)

/-- `InitArrayShortSizeConstraintFunc`: multiple of `BytesPerLong`; no
repair branch. -/
def InitArrayShortSizeConstraintFunc (p : Platform) (value : Int)
    (s : Store) : JVMFlag.Error × Store :=
  if value.tmod p.bytesPerLong != 0 then
    (JVMFlag.Error.VIOLATES_CONSTRAINT, s)
  else
    (JVMFlag.Error.SUCCESS, s)

/-- The platform-dependent `minimum_alignment` of
`InteriorEntryAlignmentConstraintFunc`. -/
def minimum_alignment (p : Platform) : Int :=
  if p.x86 && !p.amd64 then 4 else if p.s390 then 2 else 16

/-- `InteriorEntryAlignmentConstraintFunc` (`ifdef COMPILER2`): at most
`CodeEntryAlignment` (that check reads the store's
`InteriorEntryAlignment`, not the argument), a power of two, and at least
the platform minimum alignment; repairs apply to the working value in
sequence and the final value is written back. -/
def InteriorEntryAlignmentConstraintFunc (p : Platform) (value : Int)
    (s : Store) : JVMFlag.Error × Store :=
  let vfc := s.VerifyFlagConstraints
  if s.InteriorEntryAlignment > s.CodeEntryAlignment && !vfc then
    (JVMFlag.Error.VIOLATES_CONSTRAINT, s)
  else
    let c1 := s.InteriorEntryAlignment > s.CodeEntryAlignment
    let v1 := if c1 then s.CodeEntryAlignment else value
    if !is_power_of_2 v1 && !vfc then
      (JVMFlag.Error.VIOLATES_CONSTRAINT, s)
    else
      let c2 := !is_power_of_2 v1
      let v2 := if c2 then round_down_power_of_2 v1 else v1
      if v2 < minimum_alignment p && !vfc then
        (JVMFlag.Error.VIOLATES_CONSTRAINT, s)
      else
        let c3 := v2 < minimum_alignment p
        let v3 := if c3 then minimum_alignment p else v2
        if c1 || c2 || c3 then
          (JVMFlag.Error.SUCCESS, { s with InteriorEntryAlignment := v3 })
        else
          (JVMFlag.Error.SUCCESS, s)

/-- `NodeLimitFudgeFactorConstraintFunc` (`ifdef COMPILER2`): range
`[MaxNodeLimit * 2 / 100, MaxNodeLimit * 40 / 100]`; repair clamps to the
violated bound. -/
def NodeLimitFudgeFactorConstraintFunc (value : Int) (s : Store) :
    JVMFlag.Error × Store :=
  let lo := (s.MaxNodeLimit * 2).tdiv 100
  let hi := (s.MaxNodeLimit * 40).tdiv 100
  if value < lo || value > hi then
    if s.VerifyFlagConstraints then
      (JVMFlag.Error.SUCCESS,
        { s with NodeLimitFudgeFactor := if value < lo then lo else hi })
    else
      (JVMFlag.Error.VIOLATES_CONSTRAINT, s)
  else
    (JVMFlag.Error.SUCCESS, s)

/-- `RTMTotalCountIncrRateConstraintFunc` (`#if INCLUDE_RTM_OPT`): never
fails; when RTM locking is in use and the store's current value is not a
power of two it resets the flag to 64 (`FLAG_SET_DEFAULT`). -/
def RTMTotalCountIncrRateConstraintFunc (p : Platform) (_value : Int)
    (s : Store) : JVMFlag.Error × Store :=
  if p.includeRTMopt && s.UseRTMLocking
      && !is_power_of_2 s.RTMTotalCountIncrRate then
    (JVMFlag.Error.SUCCESS, { s with RTMTotalCountIncrRate := 64 })
  else
    (JVMFlag.Error.SUCCESS, s)

/-- `LoopStripMiningIterConstraintFunc` (`ifdef COMPILER2`): normalizes the
`UseCountedLoopSafepoints` / `LoopStripMiningIter` pair by mutating
`LoopStripMiningIter`, independently of `VerifyFlagConstraints`.  The third
component records whether `printError` was invoked (only when the pair is
inconsistent and at least one of the two flags is not at its default). -/
def LoopStripMiningIterConstraintFunc (_value : Nat) (s : Store) :
    JVMFlag.Error × Store × Bool :=
  if s.UseCountedLoopSafepoints && s.LoopStripMiningIter == 0 then
    let diag := !s.UseCountedLoopSafepointsIsDefault
                || !s.LoopStripMiningIterIsDefault
    (JVMFlag.Error.SUCCESS, { s with LoopStripMiningIter := 1 }, diag)
  else if !s.UseCountedLoopSafepoints && s.LoopStripMiningIter > 0 then
    let diag := !s.UseCountedLoopSafepointsIsDefault
                || !s.LoopStripMiningIterIsDefault
    (JVMFlag.Error.SUCCESS, { s with LoopStripMiningIter := 0 }, diag)
  else
    (JVMFlag.Error.SUCCESS, s, false)

/-- Switch a store to Strict mode (`VerifyFlagConstraints` off). -/
def strictMode (s : Store) : Store := { s with VerifyFlagConstraints := false }

/-- Switch a store to AutoRepair mode (`VerifyFlagConstraints` on). -/
def repairMode (s : Store) : Store := { s with VerifyFlagConstraints := true }

/-- A typical x86-64 server platform configuration, used to instantiate
closed counterexamples and witnesses. -/
def x64Platform : Platform :=
  { wordSize := 8, addrUnit := 1, countShift := 1, bytesPerLong := 8,
    x86 := true, amd64 := true, s390 := false, compiler1or2 := true,
    tiered := true, interpreterOnly := false, compiler2 := true,
    includeRTMopt := true }

/-- A baseline store with in-range flag values (Strict mode), used to
instantiate closed counterexamples and witnesses. -/
def baseStore : Store :=
  { CICompilerCount := 2, AllocatePrefetchDistance := 0,
    AllocatePrefetchStyle := 1, AllocatePrefetchStepSize := 8,
    AllocatePrefetchInstr := 0, CompileThreshold := 1000,
    OnStackReplacePercentage := 140, ProfileInterpreter := true,
    InterpreterProfilePercentage := 33, CodeCacheSegmentSize := 64,
    CodeEntryAlignment := 16, OptoLoopAlignment := 16,
    InteriorEntryAlignment := 16, MaxNodeLimit := 80000,
    NodeLimitFudgeFactor := 2000, TypeProfileLevel := 111,
    RTMTotalCountIncrRate := 64, UseRTMLocking := false,
    UseCountedLoopSafepoints := false, LoopStripMiningIter := 0,
    UseCountedLoopSafepointsIsDefault := true,
    LoopStripMiningIterIsDefault := true,
    VerifyFlagConstraints := false }

/-- `baseStore` in AutoRepair mode. -/
def repairStore : Store := repairMode baseStore

/-- The digit-clamping repair described by the spec for `TypeProfileLevel`:
clamp each of the three decimal digits to 2, drop all higher digits, and
re-encode as the digit sum weighted by powers of ten. -/
def digitClampEncode (v : Nat) : Nat :=
  min (v % 10) 2 + min (v / 10 % 10) 2 * 10 + min (v / 100 % 10) 2 * 100

/-- The derived `OnStackReplacePercentage` upper bound, written following
the claim: start from `INT_MAX`, right-shift by the counter shift only when
profiling is disabled, scale by 100 and divide by `CompileThreshold`
(multiplication only when the threshold is 0), and add
`InterpreterProfilePercentage` when profiling is enabled. -/
def osrpUpperBoundSpec (p : Platform) (s : Store) : Int :=
  let start : Int :=
    if s.ProfileInterpreter then INT_MAX else intMaxShifted p.countShift
  let scaled : Int :=
    if s.CompileThreshold = 0 then start * 100
    else start * 100 / s.CompileThreshold
  if s.ProfileInterpreter then scaled + s.InterpreterProfilePercentage
  else scaled

/-- The lower bound on `OnStackReplacePercentage` per the claim:
`InterpreterProfilePercentage` when profiling is enabled, 0 otherwise. -/
def osrpLowerBoundSpec (s : Store) : Int :=
  if s.ProfileInterpreter then s.InterpreterProfilePercentage else 0

/-! ## Helper lemmas -/

theorem two_pow_land_self_sub_one (k : Nat) : (2 ^ k) &&& (2 ^ k - 1) = 0 := by
  apply Nat.eq_of_testBit_eq
  intro i
  rw [Nat.testBit_and, Nat.testBit_two_pow, Nat.testBit_two_pow_sub_one]
  simp only [Nat.zero_testBit, Bool.and_eq_false_iff]
  by_cases h : k = i
  · subst h; right; simp
  · left; simp [h]

theorem round_down_power_of_2_eq_pow (x : Int) :
    round_down_power_of_2 x = ((2 : Int) ^ Nat.log2 x.toNat) := by
  unfold round_down_power_of_2
  rw [Nat.shiftLeft_eq]
  push_cast
  ring

theorem is_power_of_2_pow (k : Nat) : is_power_of_2 ((2 : Int) ^ k) = true := by
  unfold is_power_of_2
  have h1 : (0 : Int) < 2 ^ k := by positivity
  have h2 : ((2 : Int) ^ k).toNat = 2 ^ k := by
    rw [show ((2 : Int) ^ k) = ((2 ^ k : Nat) : Int) by push_cast; ring]
    exact Int.toNat_natCast _
  rw [h2]
  simp [h1, two_pow_land_self_sub_one]

theorem is_power_of_2_round_down (x : Int) :
    is_power_of_2 (round_down_power_of_2 x) = true := by
  rw [round_down_power_of_2_eq_pow]; exact is_power_of_2_pow _

theorem round_down_power_of_2_pos (x : Int) : 0 < round_down_power_of_2 x := by
  rw [round_down_power_of_2_eq_pow]; positivity

theorem round_down_power_of_2_le {x : Int} (hx : 0 < x) :
    round_down_power_of_2 x ≤ x := by
  have h1 : (2 : Nat) ^ Nat.log2 x.toNat ≤ x.toNat := Nat.log2_self_le (by omega)
  rw [round_down_power_of_2_eq_pow,
    show ((2 : Int) ^ Nat.log2 x.toNat) = ((2 ^ Nat.log2 x.toNat : Nat) : Int) by
      push_cast; ring]
  omega

theorem intMaxShifted_nonneg (k : Nat) : 0 ≤ intMaxShifted k :=
  Int.natCast_nonneg _

theorem is_power_of_2_pos {x : Int} (h : is_power_of_2 x = true) : 0 < x := by
  unfold is_power_of_2 at h
  simp only [Bool.and_eq_true, decide_eq_true_eq] at h
  exact h.1

theorem compileThreshold_strict_keeps_store (p : Platform) (v : Int) (s : Store)
    (hmode : s.VerifyFlagConstraints = false) :
    (CompileThresholdConstraintFunc p v s).2 = s := by
  unfold CompileThresholdConstraintFunc
  split_ifs <;> simp_all

/-- **C10 (counterexample).** `CodeEntryAlignmentConstraintFunc` does depend
on its `value` argument: on the same store, value 16 is accepted and value
10 is rejected (the power-of-two check reads the argument). -/
theorem codeEntryAlignment_uses_its_value_argument :
    (CodeEntryAlignmentConstraintFunc 16 baseStore).1 = JVMFlag.Error.SUCCESS ∧
    (CodeEntryAlignmentConstraintFunc 10 baseStore).1 =
      JVMFlag.Error.VIOLATES_CONSTRAINT := by
  decide

/-- **C10 (amended).** `CodeCacheSegmentSizeConstraintFunc` ignores its value
argument entirely; `CodeEntryAlignmentConstraintFunc` uses the argument only
in its power-of-two check and validates the store's globals otherwise, so
two argument values with equal `is_power_of_2` status yield identical
outcomes on any fixed store. -/
theorem alignment_rules_value_independence (p : Platform) (v1 v2 : Int)
    (w1 w2 : Nat) (s : Store) (h : is_power_of_2 v1 = is_power_of_2 v2) :
    CodeCacheSegmentSizeConstraintFunc p w1 s =
      CodeCacheSegmentSizeConstraintFunc p w2 s ∧
    CodeEntryAlignmentConstraintFunc v1 s =
      CodeEntryAlignmentConstraintFunc v2 s := by
  refine ⟨rfl, ?_⟩
  unfold CodeEntryAlignmentConstraintFunc
  rw [h]

/-- Closed instantiation of `alignment_rules_value_independence`. -/
theorem alignment_rules_value_independence_witness :
    CodeCacheSegmentSizeConstraintFunc x64Platform 1 baseStore =
      CodeCacheSegmentSizeConstraintFunc x64Platform 999 baseStore ∧
    CodeEntryAlignmentConstraintFunc 16 baseStore =
      CodeEntryAlignmentConstraintFunc 64 baseStore :=
  alignment_rules_value_independence x64Platform 16 64 1 999 baseStore (by decide)

/-- **C9.** `RTMTotalCountIncrRateConstraintFunc` returns `SUCCESS` on every
input in both modes; on an RTM-enabled build, when `UseRTMLocking` is set
and the store's current `RTMTotalCountIncrRate` is not a power of two, it
resets that flag to 64, independently of `VerifyFlagConstraints`. -/
theorem rtmTotalCountIncrRate_never_violates (p : Platform) (v : Int)
    (s : Store) :
    (RTMTotalCountIncrRateConstraintFunc p v s).1 = JVMFlag.Error.SUCCESS ∧
    (p.includeRTMopt = true →
      (RTMTotalCountIncrRateConstraintFunc p v s).2 =
        (if s.UseRTMLocking = true ∧ is_power_of_2 s.RTMTotalCountIncrRate = false
         then { s with RTMTotalCountIncrRate := 64 } else s)) := by
  unfold RTMTotalCountIncrRateConstraintFunc
  constructor
  · split <;> rfl
  · intro hp
    by_cases h1 : s.UseRTMLocking = true <;>
      by_cases h2 : is_power_of_2 s.RTMTotalCountIncrRate = false <;>
        simp [hp, h1, h2]

/-- Closed instantiation of `rtmTotalCountIncrRate_never_violates`. -/
theorem rtmTotalCountIncrRate_never_violates_witness :
    (RTMTotalCountIncrRateConstraintFunc x64Platform 0
      { baseStore with UseRTMLocking := true, RTMTotalCountIncrRate := 100 }).1 =
        JVMFlag.Error.SUCCESS ∧
    (RTMTotalCountIncrRateConstraintFunc x64Platform 0
      { baseStore with UseRTMLocking := true, RTMTotalCountIncrRate := 100 }).2 =
        { baseStore with UseRTMLocking := true, RTMTotalCountIncrRate := 64 } := by
  have h := rtmTotalCountIncrRate_never_violates x64Platform 0
    { baseStore with UseRTMLocking := true, RTMTotalCountIncrRate := 100 }
  refine ⟨h.1, ?_⟩
  rw [h.2 (by decide)]
  decide

/-- **C7.** In Strict mode, when `CompileThresholdConstraintFunc` rejects
the store's `CompileThreshold`, `OnStackReplacePercentageConstraintFunc`
rejects every value and leaves the store unchanged, without its own bound
being applied. -/
theorem osrp_dependency_short_circuit (p : Platform) (v : Int) (s : Store)
    (hmode : s.VerifyFlagConstraints = false)
    (hdep : (CompileThresholdConstraintFunc p s.CompileThreshold s).1 =
      JVMFlag.Error.VIOLATES_CONSTRAINT) :
    OnStackReplacePercentageConstraintFunc p v s =
      (JVMFlag.Error.VIOLATES_CONSTRAINT, s) := by
  have h2 := compileThreshold_strict_keeps_store p s.CompileThreshold s hmode
  unfold OnStackReplacePercentageConstraintFunc
  simp [hdep, h2]

/-- Closed instantiation of `osrp_dependency_short_circuit`: with
`CompileThreshold = -1` in the store, even the in-range value 100 is
rejected. -/
theorem osrp_dependency_short_circuit_witness :
    OnStackReplacePercentageConstraintFunc x64Platform 100
        { baseStore with CompileThreshold := -1 } =
      (JVMFlag.Error.VIOLATES_CONSTRAINT,
        { baseStore with CompileThreshold := -1 }) :=
  osrp_dependency_short_circuit x64Platform 100
    { baseStore with CompileThreshold := -1 } (by decide) (by decide)

theorem tdiv_le_tdiv_of_mul_le {a b : Int} (ha : 0 ≤ a) (h : a ≤ b) :
    a.tdiv 100 ≤ b.tdiv 100 := by
  rw [Int.tdiv_eq_ediv ha (by norm_num), Int.tdiv_eq_ediv (le_trans ha h) (by norm_num)]
  exact Int.ediv_le_ediv (by norm_num) h

/-- **C3 (counterexample).** In AutoRepair mode,
`AllocatePrefetchDistanceConstraintFunc` repairs the negative input -5 to
1, not to the lower bound 0 claimed. -/
theorem allocatePrefetchDistance_repairs_negative_to_one :
    (AllocatePrefetchDistanceConstraintFunc (-5) repairStore).1 =
      JVMFlag.Error.SUCCESS ∧
    (AllocatePrefetchDistanceConstraintFunc (-5)
      repairStore).2.AllocatePrefetchDistance = 1 ∧
    (AllocatePrefetchDistanceConstraintFunc (-5)
      repairStore).2.AllocatePrefetchDistance ≠ 0 := by
  decide

/-- **C3 (amended).** In AutoRepair mode the bounded-range rules
`CompileThreshold`, `AllocatePrefetchInstr` and `NodeLimitFudgeFactor`
repair a value below the lower bound to exactly the lower bound and a value
above the upper bound to exactly the upper bound;
`AllocatePrefetchDistance` (range `[0, 512]`) deviates below: every
negative input is repaired to 1, while every input above 512 is repaired to
512. -/
theorem bounded_rules_repair_clamps (p : Platform) (v : Int) (s : Store)
    (hmode : s.VerifyFlagConstraints = true) :
    (v < 0 → AllocatePrefetchDistanceConstraintFunc v s =
      (JVMFlag.Error.SUCCESS, { s with AllocatePrefetchDistance := 1 })) ∧
    (v > 512 → AllocatePrefetchDistanceConstraintFunc v s =
      (JVMFlag.Error.SUCCESS, { s with AllocatePrefetchDistance := 512 })) ∧
    (v < 0 → CompileThresholdConstraintFunc p v s =
      (JVMFlag.Error.SUCCESS, { s with CompileThreshold := 0 })) ∧
    (v > intMaxShifted p.countShift → CompileThresholdConstraintFunc p v s =
      (JVMFlag.Error.SUCCESS,
        { s with CompileThreshold := intMaxShifted p.countShift })) ∧
    (v < 0 → AllocatePrefetchInstrConstraintFunc p v s =
      (JVMFlag.Error.SUCCESS, { s with AllocatePrefetchInstr := 0 })) ∧
    (v > (if p.x86 then (3 : Int) else max_intx) →
      AllocatePrefetchInstrConstraintFunc p v s =
      (JVMFlag.Error.SUCCESS,
        { s with AllocatePrefetchInstr := if p.x86 then (3 : Int) else max_intx })) ∧
    (v < (s.MaxNodeLimit * 2).tdiv 100 → NodeLimitFudgeFactorConstraintFunc v s =
      (JVMFlag.Error.SUCCESS,
        { s with NodeLimitFudgeFactor := (s.MaxNodeLimit * 2).tdiv 100 })) ∧
    (0 ≤ s.MaxNodeLimit → v > (s.MaxNodeLimit * 40).tdiv 100 →
      NodeLimitFudgeFactorConstraintFunc v s =
      (JVMFlag.Error.SUCCESS,
        { s with NodeLimitFudgeFactor := (s.MaxNodeLimit * 40).tdiv 100 })) := by
  refine ⟨?_, ?_, ?_, ?_, ?_, ?_, ?_, ?_⟩
  · intro h
    simp [AllocatePrefetchDistanceConstraintFunc, hmode, h]
  · intro h
    simp [AllocatePrefetchDistanceConstraintFunc, hmode, h,
      show ¬ v < 0 by omega]
  · intro h
    simp [CompileThresholdConstraintFunc, hmode, h]
  · intro h
    have h0 := intMaxShifted_nonneg p.countShift
    simp [CompileThresholdConstraintFunc, hmode, h, show ¬ v < 0 by omega]
  · intro h
    simp [AllocatePrefetchInstrConstraintFunc, hmode, h]
  · intro h
    have h0 : ¬ v < 0 := by
      by_cases hx : p.x86 <;> simp [hx] at h <;> [omega; (unfold max_intx at h; omega)]
    simp [AllocatePrefetchInstrConstraintFunc, hmode, h, h0]
  · intro h
    simp [NodeLimitFudgeFactorConstraintFunc, hmode, h]
  · intro hm h
    have hle : (s.MaxNodeLimit * 2).tdiv 100 ≤ (s.MaxNodeLimit * 40).tdiv 100 :=
      tdiv_le_tdiv_of_mul_le (by omega) (by omega)
    simp [NodeLimitFudgeFactorConstraintFunc, hmode, h, show
      ¬ v < (s.MaxNodeLimit * 2).tdiv 100 by omega]

/-- Closed instantiation of `bounded_rules_repair_clamps`. -/
theorem bounded_rules_repair_clamps_witness :
    AllocatePrefetchDistanceConstraintFunc (-7) repairStore =
      (JVMFlag.Error.SUCCESS, { repairStore with AllocatePrefetchDistance := 1 }) ∧
    AllocatePrefetchDistanceConstraintFunc 600 repairStore =
      (JVMFlag.Error.SUCCESS,
        { repairStore with AllocatePrefetchDistance := 512 }) :=
  ⟨(bounded_rules_repair_clamps x64Platform (-7) repairStore (by decide)).1
      (by decide),
   ((bounded_rules_repair_clamps x64Platform 600 repairStore (by decide)).2.1)
      (by decide)⟩

/-- **C8.** `TypeProfileLevelConstraintFunc`: on input 239 Strict mode
reports a violation naming digit position 0; AutoRepair mode clamps the
digits `(9,3,2)` to `(2,2,2)` and stores 222; in general AutoRepair always
succeeds and, whenever any digit is out of range or digits beyond the third
are present, stores the clamped, truncated re-encoding `digitClampEncode`. -/
theorem typeProfileLevel_digit_repair (v : Nat) (s : Store)
    (hmode : s.VerifyFlagConstraints = true) :
    (TypeProfileLevelConstraintFunc v s).1 = JVMFlag.Error.SUCCESS ∧
    (TypeProfileLevelConstraintFunc v s).2.1.TypeProfileLevel =
      (if v % 10 ≤ 2 ∧ v / 10 % 10 ≤ 2 ∧ v / 100 % 10 ≤ 2 ∧ v / 1000 = 0
       then s.TypeProfileLevel else digitClampEncode v) ∧
    TypeProfileLevelConstraintFunc 239 (strictMode s) =
      (JVMFlag.Error.VIOLATES_CONSTRAINT, strictMode s, some 0) ∧
    (TypeProfileLevelConstraintFunc 239 s).2.1.TypeProfileLevel = 222 := by
  have e1 : v / 10 / 10 = v / 100 := by omega
  have e2 : v / 10 / 10 / 10 = v / 1000 := by omega
  refine ⟨?_, ?_, ?_, ?_⟩
  · simp only [TypeProfileLevelConstraintFunc, hmode, Bool.not_true,
      Bool.and_false, Bool.false_eq_true, if_false]
    split <;> rfl
  · simp only [TypeProfileLevelConstraintFunc, hmode, Bool.not_true,
      Bool.and_false, Bool.false_eq_true, if_false, e1, e2, Bool.or_eq_true,
      decide_eq_true_eq, bne_iff_ne, ne_eq, digitClampEncode, Nat.min_def]
    split_ifs <;> dsimp only <;> omega
  · simp [TypeProfileLevelConstraintFunc, strictMode]
  · simp [TypeProfileLevelConstraintFunc, hmode]

/-- Closed instantiation of `typeProfileLevel_digit_repair`. -/
theorem typeProfileLevel_digit_repair_witness :
    (TypeProfileLevelConstraintFunc 239 repairStore).1 = JVMFlag.Error.SUCCESS ∧
    (TypeProfileLevelConstraintFunc 239 repairStore).2.1.TypeProfileLevel =
      digitClampEncode 239 ∧
    TypeProfileLevelConstraintFunc 239 (strictMode repairStore) =
      (JVMFlag.Error.VIOLATES_CONSTRAINT, strictMode repairStore, some 0) := by
  have h := typeProfileLevel_digit_repair 239 repairStore (by decide)
  refine ⟨h.1, ?_, h.2.2.1⟩
  rw [h.2.1]
  decide

/-- **C4 (counterexample).** With `UseCountedLoopSafepoints` left at its
default (`false`) and `LoopStripMiningIter` explicitly set to 5, the rule
does not force the defaulted parameter into agreement with the explicit one
(which would give `UseCountedLoopSafepoints = true`, iteration count 5
kept): instead it overwrites the explicitly set `LoopStripMiningIter` with
0 and leaves `UseCountedLoopSafepoints` untouched. -/
theorem loopStripMining_overwrites_explicit_side :
    (LoopStripMiningIterConstraintFunc 5 { baseStore with LoopStripMiningIter := 5, LoopStripMiningIterIsDefault := false }).2.1.UseCountedLoopSafepoints = false ∧
    (LoopStripMiningIterConstraintFunc 5 { baseStore with LoopStripMiningIter := 5, LoopStripMiningIterIsDefault := false }).2.1.LoopStripMiningIter = 0 := by
  decide

/-- **C4 (amended).** The safepoint/iteration-count rule changes nothing
when the pair is already consistent (`UseCountedLoopSafepoints` iff a
positive `LoopStripMiningIter`), in particular when both flags sit at
consistent defaults; when it normalizes it always mutates
`LoopStripMiningIter` only (to 1 when safepoints are on and the count is 0,
to 0 when safepoints are off and the count is positive), never
`UseCountedLoopSafepoints`, regardless of which side was defaulted; a
diagnostic is emitted exactly when it normalizes and at least one of the
two flags was explicitly set; and the outcome, the resulting pair and the
diagnostic are identical in Strict and AutoRepair modes. -/
theorem loopStripMining_normalization (v : Nat) (s : Store) :
    (LoopStripMiningIterConstraintFunc v s).1 = JVMFlag.Error.SUCCESS ∧
    ((s.UseCountedLoopSafepoints = true ↔ 0 < s.LoopStripMiningIter) →
      LoopStripMiningIterConstraintFunc v s = (JVMFlag.Error.SUCCESS, s, false)) ∧
    (LoopStripMiningIterConstraintFunc v s).2.1.UseCountedLoopSafepoints =
      s.UseCountedLoopSafepoints ∧
    (LoopStripMiningIterConstraintFunc v s).2.1 =
      { s with LoopStripMiningIter :=
          (LoopStripMiningIterConstraintFunc v s).2.1.LoopStripMiningIter } ∧
    (s.UseCountedLoopSafepoints = true → s.LoopStripMiningIter = 0 →
      (LoopStripMiningIterConstraintFunc v s).2.1.LoopStripMiningIter = 1) ∧
    (s.UseCountedLoopSafepoints = false → 0 < s.LoopStripMiningIter →
      (LoopStripMiningIterConstraintFunc v s).2.1.LoopStripMiningIter = 0) ∧
    ((LoopStripMiningIterConstraintFunc v s).2.2 = true ↔
      (¬ (s.UseCountedLoopSafepoints = true ↔ 0 < s.LoopStripMiningIter) ∧
        (s.UseCountedLoopSafepointsIsDefault = false ∨
          s.LoopStripMiningIterIsDefault = false))) ∧
    (LoopStripMiningIterConstraintFunc v (strictMode s)).1 =
      (LoopStripMiningIterConstraintFunc v (repairMode s)).1 ∧
    (LoopStripMiningIterConstraintFunc v (strictMode s)).2.1.LoopStripMiningIter =
      (LoopStripMiningIterConstraintFunc v (repairMode s)).2.1.LoopStripMiningIter ∧
    (LoopStripMiningIterConstraintFunc v (strictMode s)).2.2 =
      (LoopStripMiningIterConstraintFunc v (repairMode s)).2.2 := by
  by_cases hU : s.UseCountedLoopSafepoints = true <;>
    by_cases hL : s.LoopStripMiningIter = 0 <;>
      by_cases hdU : s.UseCountedLoopSafepointsIsDefault = true <;>
        by_cases hdL : s.LoopStripMiningIterIsDefault = true <;>
          simp_all [LoopStripMiningIterConstraintFunc, strictMode, repairMode,
            Nat.pos_iff_ne_zero] <;>
            first
              | omega
              | (ext <;> simp_all)

/-- Closed instantiation of `loopStripMining_normalization`: the spec's
scenario, safepoints explicitly enabled and the iteration count left at its
default 0: normalized to 1 with a diagnostic. -/
theorem loopStripMining_normalization_witness :
    (LoopStripMiningIterConstraintFunc 0 { baseStore with UseCountedLoopSafepoints := true, UseCountedLoopSafepointsIsDefault := false }).2.1.LoopStripMiningIter = 1 ∧
    (LoopStripMiningIterConstraintFunc 0 { baseStore with UseCountedLoopSafepoints := true, UseCountedLoopSafepointsIsDefault := false }).2.2 = true := by
  have h := loopStripMining_normalization 0 { baseStore with UseCountedLoopSafepoints := true, UseCountedLoopSafepointsIsDefault := false }
  refine ⟨h.2.2.2.2.1 (by decide) (by decide), ?_⟩
  rw [h.2.2.2.2.2.2.1]
  refine ⟨?_, ?_⟩ <;> decide

theorem compileThreshold_valid_eval (p : Platform) (v : Int) (s : Store)
    (hlo : 0 ≤ v) (hhi : v ≤ intMaxShifted p.countShift) :
    CompileThresholdConstraintFunc p v s = (JVMFlag.Error.SUCCESS, s) := by
  unfold CompileThresholdConstraintFunc
  split_ifs with h h2 <;> try rfl
  all_goals (simp only [Bool.or_eq_true, decide_eq_true_eq] at h; omega)

theorem intMaxShifted_le (k : Nat) : intMaxShifted k ≤ INT_MAX := by
  unfold intMaxShifted INT_MAX
  have h : (2147483647 >>> k : Nat) ≤ 2147483647 := by
    rw [Nat.shiftRight_eq_div_pow]
    exact Nat.div_le_self _ _
  omega

theorem osrp_lower_le_upper (p : Platform) (s : Store)
    (hlo : 0 ≤ s.CompileThreshold) :
    osrpLowerBoundSpec s ≤ osrpUpperBoundSpec p s := by
  unfold osrpLowerBoundSpec osrpUpperBoundSpec
  have h1 : 0 ≤ (if s.ProfileInterpreter then INT_MAX
      else intMaxShifted p.countShift) * 100 := by
    have h2 := intMaxShifted_nonneg p.countShift
    split_ifs
    · norm_num [INT_MAX]
    · omega
  by_cases hPI : s.ProfileInterpreter = true <;>
    by_cases hCT : s.CompileThreshold = 0 <;>
      simp only [hPI, hCT, if_true, if_false, Bool.false_eq_true] <;>
        simp only [hPI, Bool.false_eq_true, if_false, if_true] at h1
  · omega
  · have h3 : 0 ≤ INT_MAX * 100 / s.CompileThreshold := Int.ediv_nonneg h1 hlo
    omega
  · omega
  · have h3 : 0 ≤ intMaxShifted p.countShift * 100 / s.CompileThreshold :=
      Int.ediv_nonneg h1 hlo
    omega

/-- Under a valid `CompileThreshold`, `OnStackReplacePercentageConstraintFunc`
is exactly the clamp-or-reject against the derived bounds
`osrpLowerBoundSpec` / `osrpUpperBoundSpec`. -/
theorem osrp_eval_valid_ct (p : Platform) (v : Int) (s : Store)
    (hlo : 0 ≤ s.CompileThreshold)
    (hhi : s.CompileThreshold ≤ intMaxShifted p.countShift) :
    OnStackReplacePercentageConstraintFunc p v s =
      (if v < osrpLowerBoundSpec s then
         (if s.VerifyFlagConstraints then
            (JVMFlag.Error.SUCCESS,
              { s with OnStackReplacePercentage := osrpLowerBoundSpec s })
          else (JVMFlag.Error.VIOLATES_CONSTRAINT, s))
       else if v > osrpUpperBoundSpec p s then
         (if s.VerifyFlagConstraints then
            (JVMFlag.Error.SUCCESS,
              { s with OnStackReplacePercentage := osrpUpperBoundSpec p s })
          else (JVMFlag.Error.VIOLATES_CONSTRAINT, s))
       else (JVMFlag.Error.SUCCESS, s)) := by
  have hdep := compileThreshold_valid_eval p s.CompileThreshold s hlo hhi
  unfold OnStackReplacePercentageConstraintFunc
  rw [hdep]
  by_cases hPI : s.ProfileInterpreter = true <;>
    by_cases hCT : s.CompileThreshold = 0
  · simp [osrpLowerBoundSpec, osrpUpperBoundSpec, hPI, hCT]
  · have hpos : 0 < s.CompileThreshold := by omega
    have htd : (INT_MAX * 100).tdiv s.CompileThreshold =
        INT_MAX * 100 / s.CompileThreshold :=
      Int.tdiv_eq_ediv (by norm_num [INT_MAX]) hlo
    simp [osrpLowerBoundSpec, osrpUpperBoundSpec, hPI, hCT, htd]
  · simp [osrpLowerBoundSpec, osrpUpperBoundSpec, hPI, hCT]
  · have htd : (intMaxShifted p.countShift * 100).tdiv s.CompileThreshold =
        intMaxShifted p.countShift * 100 / s.CompileThreshold :=
      Int.tdiv_eq_ediv (by have := intMaxShifted_nonneg p.countShift; omega) hlo
    simp [osrpLowerBoundSpec, osrpUpperBoundSpec, hPI, hCT, htd]

/-- **C6.** In Strict mode, with a valid `CompileThreshold` in the store,
`OnStackReplacePercentageConstraintFunc` accepts exactly the values between
the spec's derived bounds: the upper bound starts from `INT_MAX`,
right-shifted by the invocation-counter shift only when
`ProfileInterpreter` is off, scaled by 100 and divided by
`CompileThreshold` (multiplication only when the threshold is 0), plus
`InterpreterProfilePercentage` when profiling is on; with profiling on,
every value strictly below `InterpreterProfilePercentage` is rejected; and
the bound stays inside 64-bit range. -/
theorem osrp_derived_bound (p : Platform) (v : Int) (s : Store)
    (hmode : s.VerifyFlagConstraints = false)
    (hlo : 0 ≤ s.CompileThreshold)
    (hhi : s.CompileThreshold ≤ intMaxShifted p.countShift) :
    ((OnStackReplacePercentageConstraintFunc p v s).1 = JVMFlag.Error.SUCCESS ↔
      osrpLowerBoundSpec s ≤ v ∧ v ≤ osrpUpperBoundSpec p s) ∧
    (s.ProfileInterpreter = true → v < s.InterpreterProfilePercentage →
      (OnStackReplacePercentageConstraintFunc p v s).1 =
        JVMFlag.Error.VIOLATES_CONSTRAINT) ∧
    (0 ≤ s.InterpreterProfilePercentage →
      s.InterpreterProfilePercentage ≤ 100 →
      osrpUpperBoundSpec p s < 2 ^ 63) := by
  rw [osrp_eval_valid_ct p v s hlo hhi]
  refine ⟨?_, ?_, ?_⟩
  · have hb := osrp_lower_le_upper p s hlo
    split_ifs with h1 h2 <;> simp_all
  · intro hPI hlt
    have hlow : v < osrpLowerBoundSpec s := by
      unfold osrpLowerBoundSpec
      rw [hPI]
      simpa using hlt
    simp [hlow, hmode]
  · intro hip1 hip2
    have hsh := intMaxShifted_le p.countShift
    have hsh0 := intMaxShifted_nonneg p.countShift
    simp only [INT_MAX] at hsh
    by_cases hPI : s.ProfileInterpreter = true <;>
      by_cases hCT : s.CompileThreshold = 0
    · simp [osrpUpperBoundSpec, INT_MAX, hPI, hCT]
      omega
    · have hdiv : (214748364700 : Int) / s.CompileThreshold ≤
          214748364700 := Int.ediv_le_self _ (by omega)
      simp [osrpUpperBoundSpec, INT_MAX, hPI, hCT]
      omega
    · simp [osrpUpperBoundSpec, INT_MAX, hPI, hCT]
      omega
    · have hdiv : intMaxShifted p.countShift * 100 / s.CompileThreshold ≤
          intMaxShifted p.countShift * 100 := Int.ediv_le_self _ (by omega)
      simp [osrpUpperBoundSpec, INT_MAX, hPI, hCT]
      omega

/-- Closed instantiation of `osrp_derived_bound`: with profiling on,
`CompileThreshold = 1000` and `InterpreterProfilePercentage = 33`, the
derived bound accepts 140. -/
theorem osrp_derived_bound_witness :
    (OnStackReplacePercentageConstraintFunc x64Platform 140 baseStore).1 =
      JVMFlag.Error.SUCCESS := by
  have h := osrp_derived_bound x64Platform 140 baseStore (by decide) (by decide)
    (by decide)
  exact h.1.mpr (by constructor <;> decide)

theorem compileThreshold_repair_success (p : Platform) (v : Int) (s : Store)
    (hmode : s.VerifyFlagConstraints = true) :
    (CompileThresholdConstraintFunc p v s).1 = JVMFlag.Error.SUCCESS ∧
    (CompileThresholdConstraintFunc p v s).2.VerifyFlagConstraints = true := by
  unfold CompileThresholdConstraintFunc
  split_ifs <;> simp_all

/-- **C2 (counterexample).** `InitArrayShortSizeConstraintFunc` — a
multiple-of-N rule on a production parameter, neither an intrinsic list
validator nor a development-only alignment parameter — still returns
`VIOLATES_CONSTRAINT` in AutoRepair mode (it has no repair branch). -/
theorem initArrayShortSize_violates_in_autorepair :
    repairStore.VerifyFlagConstraints = true ∧
    (InitArrayShortSizeConstraintFunc x64Platform 1 repairStore).1 =
      JVMFlag.Error.VIOLATES_CONSTRAINT := by
  decide

/-- **C2 (amended).** In AutoRepair mode the ten rules with repair branches
return `SUCCESS` on every input (for the two power-of-two alignment repairs,
on every positive input, where the source's rounding is defined); but
beyond the intrinsic list validators and the development-only alignment
parameters (`CodeEntryAlignment`, `CodeCacheSegmentSize`), the rules
`AVX3Threshold`, `ArraycopySrcPrefetchDistance`,
`ArraycopyDstPrefetchDistance`, `InitArrayShortSize` and
`VerifyIterativeGVN` also have no repair branch and still return
`VIOLATES_CONSTRAINT` in AutoRepair mode. -/
theorem autorepair_repairable_rules_never_violate (p : Platform) (v : Int)
    (u : Nat) (s : Store) (hmode : s.VerifyFlagConstraints = true) :
    (CICompilerCountConstraintFunc p v s).1 = JVMFlag.Error.SUCCESS ∧
    (AllocatePrefetchDistanceConstraintFunc v s).1 = JVMFlag.Error.SUCCESS ∧
    (AllocatePrefetchStepSizeConstraintFunc p v s).1 = JVMFlag.Error.SUCCESS ∧
    (AllocatePrefetchInstrConstraintFunc p v s).1 = JVMFlag.Error.SUCCESS ∧
    (CompileThresholdConstraintFunc p v s).1 = JVMFlag.Error.SUCCESS ∧
    (OnStackReplacePercentageConstraintFunc p v s).1 = JVMFlag.Error.SUCCESS ∧
    (0 < v → (OptoLoopAlignmentConstraintFunc p v s).1 = JVMFlag.Error.SUCCESS) ∧
    (0 < v →
      (InteriorEntryAlignmentConstraintFunc p v s).1 = JVMFlag.Error.SUCCESS) ∧
    (NodeLimitFudgeFactorConstraintFunc v s).1 = JVMFlag.Error.SUCCESS ∧
    (TypeProfileLevelConstraintFunc u s).1 = JVMFlag.Error.SUCCESS ∧
    (AVX3ThresholdConstraintFunc 3 repairStore).1 =
      JVMFlag.Error.VIOLATES_CONSTRAINT ∧
    (ArraycopySrcPrefetchDistanceConstraintFunc 4032 repairStore).1 =
      JVMFlag.Error.VIOLATES_CONSTRAINT ∧
    (ArraycopyDstPrefetchDistanceConstraintFunc 4032 repairStore).1 =
      JVMFlag.Error.VIOLATES_CONSTRAINT ∧
    (InitArrayShortSizeConstraintFunc x64Platform 1 repairStore).1 =
      JVMFlag.Error.VIOLATES_CONSTRAINT ∧
    (VerifyIterativeGVNConstraintFunc 2 repairStore).1 =
      JVMFlag.Error.VIOLATES_CONSTRAINT ∧
    (CodeEntryAlignmentConstraintFunc 10 repairStore).1 =
      JVMFlag.Error.VIOLATES_CONSTRAINT ∧
    (CodeCacheSegmentSizeConstraintFunc x64Platform 0
      { repairStore with CodeCacheSegmentSize := 4 }).1 =
      JVMFlag.Error.VIOLATES_CONSTRAINT := by
  obtain ⟨hct1, hct2⟩ :=
    compileThreshold_repair_success p s.CompileThreshold s hmode
  refine ⟨?_, ?_, ?_, ?_, ?_, ?_, ?_, ?_, ?_, ?_, by decide, by decide, by decide,
    by decide, by decide, by decide, by decide⟩
  · simp only [CICompilerCountConstraintFunc, hmode, eq_self_iff_true, if_true,
      apply_ite (@Prod.fst JVMFlag.Error Store), ite_self]
  · simp only [AllocatePrefetchDistanceConstraintFunc, hmode, eq_self_iff_true,
      if_true, apply_ite (@Prod.fst JVMFlag.Error Store), ite_self]
  · simp only [AllocatePrefetchStepSizeConstraintFunc, hmode, eq_self_iff_true,
      if_true, apply_ite (@Prod.fst JVMFlag.Error Store), ite_self]
  · simp only [AllocatePrefetchInstrConstraintFunc, hmode, eq_self_iff_true,
      if_true, apply_ite (@Prod.fst JVMFlag.Error Store), ite_self]
  · exact (compileThreshold_repair_success p v s hmode).1
  · unfold OnStackReplacePercentageConstraintFunc
    generalize hg : CompileThresholdConstraintFunc p s.CompileThreshold s = dep
    rw [hg] at hct1 hct2
    obtain ⟨e, t⟩ := dep
    simp only at hct1 hct2
    subst hct1
    simp only [hct2, eq_self_iff_true, if_true,
      show (JVMFlag.Error.SUCCESS == JVMFlag.Error.VIOLATES_CONSTRAINT) = false
        from rfl,
      Bool.false_eq_true, if_false]
    split_ifs <;> rfl
  · intro hv
    simp only [OptoLoopAlignmentConstraintFunc, hmode, Bool.not_true,
      Bool.and_false, Bool.false_eq_true, if_false,
      apply_ite (@Prod.fst JVMFlag.Error Store), ite_self]
  · intro hv
    simp only [InteriorEntryAlignmentConstraintFunc, hmode, Bool.not_true,
      Bool.and_false, Bool.false_eq_true, if_false,
      apply_ite (@Prod.fst JVMFlag.Error Store), ite_self]
  · simp only [NodeLimitFudgeFactorConstraintFunc, hmode, eq_self_iff_true,
      if_true, apply_ite (@Prod.fst JVMFlag.Error Store), ite_self]
  · simp only [TypeProfileLevelConstraintFunc, hmode, Bool.not_true,
      Bool.and_false, Bool.false_eq_true, if_false,
      apply_ite (@Prod.fst JVMFlag.Error (Store × Option Nat)), ite_self]

/-- Closed instantiation of `autorepair_repairable_rules_never_violate`. -/
theorem autorepair_repairable_rules_never_violate_witness :
    (OptoLoopAlignmentConstraintFunc x64Platform 24 repairStore).1 =
      JVMFlag.Error.SUCCESS ∧
    (OnStackReplacePercentageConstraintFunc x64Platform (-9) repairStore).1 =
      JVMFlag.Error.SUCCESS := by
  have h := autorepair_repairable_rules_never_violate x64Platform 24 0
    repairStore (by decide)
  have h2 := autorepair_repairable_rules_never_violate x64Platform (-9) 0
    repairStore (by decide)
  exact ⟨h.2.2.2.2.2.2.1 (by decide), h2.2.2.2.2.2.1⟩

theorem compileThreshold_frame (p : Platform) (v : Int) (s : Store) :
    (CompileThresholdConstraintFunc p v s).2 =
      { s with CompileThreshold :=
          (CompileThresholdConstraintFunc p v s).2.CompileThreshold } := by
  simp only [CompileThresholdConstraintFunc]
  split_ifs <;> rfl

theorem compileThreshold_keeps_vfc (p : Platform) (v : Int) (s : Store) :
    (CompileThresholdConstraintFunc p v s).2.VerifyFlagConstraints =
      s.VerifyFlagConstraints := by
  simp only [CompileThresholdConstraintFunc]
  split_ifs <;> rfl

/-- **C5 (counterexample).** In AutoRepair mode,
`OnStackReplacePercentageConstraintFunc` mutates `CompileThreshold` (a
parameter it does not govern): its embedded dependency check repairs the
out-of-range value -1 to 0 as a side effect. -/
theorem osrp_mutates_compileThreshold :
    ({ repairStore with CompileThreshold := -1 } : Store).CompileThreshold = -1 ∧
    (OnStackReplacePercentageConstraintFunc x64Platform 100
      { repairStore with CompileThreshold := -1 }).2.CompileThreshold = 0 := by
  decide

set_option maxHeartbeats 1600000 in
/-- **C5 (amended).** Every constraint rule mutates at most the parameter it
governs (the consistency pair rule mutates only `LoopStripMiningIter`; the
unrepaired rules mutate nothing), with one exception:
`OnStackReplacePercentageConstraintFunc` leaves the store unchanged in
Strict mode, but in AutoRepair mode may additionally mutate
`CompileThreshold` through its embedded dependency check. -/
theorem rules_frame_condition (p : Platform) (v : Int) (u : Nat) (s : Store) :
    (CICompilerCountConstraintFunc p v s).2 =
      { s with CICompilerCount :=
          (CICompilerCountConstraintFunc p v s).2.CICompilerCount } ∧
    (AllocatePrefetchDistanceConstraintFunc v s).2 =
      { s with AllocatePrefetchDistance :=
          (AllocatePrefetchDistanceConstraintFunc v s).2.AllocatePrefetchDistance } ∧
    (AllocatePrefetchStepSizeConstraintFunc p v s).2 =
      { s with AllocatePrefetchStepSize :=
          (AllocatePrefetchStepSizeConstraintFunc p v s).2.AllocatePrefetchStepSize } ∧
    (AllocatePrefetchInstrConstraintFunc p v s).2 =
      { s with AllocatePrefetchInstr :=
          (AllocatePrefetchInstrConstraintFunc p v s).2.AllocatePrefetchInstr } ∧
    (CompileThresholdConstraintFunc p v s).2 =
      { s with CompileThreshold :=
          (CompileThresholdConstraintFunc p v s).2.CompileThreshold } ∧
    (OptoLoopAlignmentConstraintFunc p v s).2 =
      { s with OptoLoopAlignment :=
          (OptoLoopAlignmentConstraintFunc p v s).2.OptoLoopAlignment } ∧
    (InteriorEntryAlignmentConstraintFunc p v s).2 =
      { s with InteriorEntryAlignment :=
          (InteriorEntryAlignmentConstraintFunc p v s).2.InteriorEntryAlignment } ∧
    (NodeLimitFudgeFactorConstraintFunc v s).2 =
      { s with NodeLimitFudgeFactor :=
          (NodeLimitFudgeFactorConstraintFunc v s).2.NodeLimitFudgeFactor } ∧
    (TypeProfileLevelConstraintFunc u s).2.1 =
      { s with TypeProfileLevel :=
          (TypeProfileLevelConstraintFunc u s).2.1.TypeProfileLevel } ∧
    (RTMTotalCountIncrRateConstraintFunc p v s).2 =
      { s with RTMTotalCountIncrRate :=
          (RTMTotalCountIncrRateConstraintFunc p v s).2.RTMTotalCountIncrRate } ∧
    (LoopStripMiningIterConstraintFunc u s).2.1 =
      { s with LoopStripMiningIter :=
          (LoopStripMiningIterConstraintFunc u s).2.1.LoopStripMiningIter } ∧
    (CodeCacheSegmentSizeConstraintFunc p u s).2 = s ∧
    (CodeEntryAlignmentConstraintFunc v s).2 = s ∧
    (AVX3ThresholdConstraintFunc v s).2 = s ∧
    (ArraycopySrcPrefetchDistanceConstraintFunc u s).2 = s ∧
    (ArraycopyDstPrefetchDistanceConstraintFunc u s).2 = s ∧
    (VerifyIterativeGVNConstraintFunc u s).2 = s ∧
    (InitArrayShortSizeConstraintFunc p v s).2 = s ∧
    (s.VerifyFlagConstraints = false →
      (OnStackReplacePercentageConstraintFunc p v s).2 = s) ∧
    (OnStackReplacePercentageConstraintFunc p v s).2 =
      { s with
          OnStackReplacePercentage :=
            (OnStackReplacePercentageConstraintFunc p v s).2.OnStackReplacePercentage,
          CompileThreshold :=
            (OnStackReplacePercentageConstraintFunc p v s).2.CompileThreshold } := by
  refine ⟨?_, ?_, ?_, ?_, ?_, ?_, ?_, ?_, ?_, ?_, ?_, ?_, ?_, ?_, ?_, ?_, ?_,
    ?_, ?_, ?_⟩
  · simp only [CICompilerCountConstraintFunc]
    split_ifs <;> rfl
  · simp only [AllocatePrefetchDistanceConstraintFunc]
    split_ifs <;> rfl
  · simp only [AllocatePrefetchStepSizeConstraintFunc]
    split_ifs <;> rfl
  · simp only [AllocatePrefetchInstrConstraintFunc]
    split_ifs <;> rfl
  · exact compileThreshold_frame p v s
  · simp only [OptoLoopAlignmentConstraintFunc]
    split_ifs <;> rfl
  · simp only [InteriorEntryAlignmentConstraintFunc]
    split_ifs <;> rfl
  · simp only [NodeLimitFudgeFactorConstraintFunc]
    split_ifs <;> rfl
  · simp only [TypeProfileLevelConstraintFunc]
    split_ifs <;> rfl
  · simp only [RTMTotalCountIncrRateConstraintFunc]
    split_ifs <;> rfl
  · simp only [LoopStripMiningIterConstraintFunc]
    split_ifs <;> rfl
  · simp only [CodeCacheSegmentSizeConstraintFunc]
    split_ifs <;> rfl
  · simp only [CodeEntryAlignmentConstraintFunc]
    split_ifs <;> rfl
  · simp only [AVX3ThresholdConstraintFunc]
    split_ifs <;> rfl
  · simp only [ArraycopySrcPrefetchDistanceConstraintFunc]
    split_ifs <;> rfl
  · simp only [ArraycopyDstPrefetchDistanceConstraintFunc]
    split_ifs <;> rfl
  · simp only [VerifyIterativeGVNConstraintFunc]
    split_ifs <;> rfl
  · simp only [InitArrayShortSizeConstraintFunc]
    split_ifs <;> rfl
  · intro hmode
    have hct := compileThreshold_strict_keeps_store p s.CompileThreshold s hmode
    unfold OnStackReplacePercentageConstraintFunc
    generalize hg : CompileThresholdConstraintFunc p s.CompileThreshold s = dep
    rw [hg] at hct
    obtain ⟨e, t⟩ := dep
    simp only at hct
    subst hct
    cases e
    · simp only [show (JVMFlag.Error.SUCCESS ==
          JVMFlag.Error.VIOLATES_CONSTRAINT) = false from rfl,
        Bool.false_eq_true, if_false, hmode, if_true, eq_self_iff_true]
      split_ifs <;> rfl
    · rfl
  · have hframe := compileThreshold_frame p s.CompileThreshold s
    unfold OnStackReplacePercentageConstraintFunc
    generalize hg : CompileThresholdConstraintFunc p s.CompileThreshold s = dep
    rw [hg] at hframe
    obtain ⟨e, t⟩ := dep
    simp only at hframe
    generalize hc : t.CompileThreshold = c at hframe
    subst hframe
    cases e
    · simp only [show (JVMFlag.Error.SUCCESS ==
          JVMFlag.Error.VIOLATES_CONSTRAINT) = false from rfl,
        Bool.false_eq_true, if_false]
      split_ifs <;> rfl
    · rfl

/-- Closed instantiation of `rules_frame_condition`: in Strict mode the
`OnStackReplacePercentage` rule leaves the store untouched. -/
theorem rules_frame_condition_witness :
    (OnStackReplacePercentageConstraintFunc x64Platform 100 baseStore).2 =
      baseStore :=
  (rules_frame_condition x64Platform 100 0 baseStore).2.2.2.2.2.2.2.2.2.2.2.2.2.2.2.2.2.2.1
    (by decide)

theorem cicc_repair_accept (p : Platform) (v : Int) (s : Store)
    (hp : p.compiler1or2 = true)
    (hviol : (CICompilerCountConstraintFunc p v (strictMode s)).1 =
      JVMFlag.Error.VIOLATES_CONSTRAINT) :
    (CICompilerCountConstraintFunc p v (repairMode s)).1 =
      JVMFlag.Error.SUCCESS ∧
    (CICompilerCountConstraintFunc p
      ((CICompilerCountConstraintFunc p v (repairMode s)).2.CICompilerCount)
      (strictMode (CICompilerCountConstraintFunc p v (repairMode s)).2)).1 =
      JVMFlag.Error.SUCCESS := by
  by_cases hv : v < (if p.tiered then (2 : Int) else
      if p.interpreterOnly = false then 1 else 0)
  · constructor
    · simp [CICompilerCountConstraintFunc, repairMode, hp, hv]
    · simp [CICompilerCountConstraintFunc, repairMode, strictMode, hp, hv]
  · exfalso
    simp [CICompilerCountConstraintFunc, strictMode, hp, hv] at hviol

theorem apd_repair_accept (v : Int) (s : Store)
    (hviol : (AllocatePrefetchDistanceConstraintFunc v (strictMode s)).1 =
      JVMFlag.Error.VIOLATES_CONSTRAINT) :
    (AllocatePrefetchDistanceConstraintFunc v (repairMode s)).1 =
      JVMFlag.Error.SUCCESS ∧
    (AllocatePrefetchDistanceConstraintFunc
      ((AllocatePrefetchDistanceConstraintFunc v
        (repairMode s)).2.AllocatePrefetchDistance)
      (strictMode (AllocatePrefetchDistanceConstraintFunc v
        (repairMode s)).2)).1 = JVMFlag.Error.SUCCESS := by
  by_cases hv : v < 0 ∨ v > 512
  · have hc : (decide (v < 0) || decide (v > 512)) = true := by
      simp only [Bool.or_eq_true, decide_eq_true_eq]; exact hv
    constructor
    · simp [AllocatePrefetchDistanceConstraintFunc, repairMode, hc]
    · by_cases hneg : v < 0
      · simp [AllocatePrefetchDistanceConstraintFunc, repairMode, strictMode,
          hc, hneg]
      · have hgt : (512 : Int) < v := by
          rcases hv with h | h
          · exact absurd h hneg
          · exact h
        simp [AllocatePrefetchDistanceConstraintFunc, repairMode, strictMode,
          hc, hneg, hgt]
  · exfalso
    rw [not_or] at hv
    simp [AllocatePrefetchDistanceConstraintFunc, strictMode, hv.1, hv.2]
      at hviol

theorem apinstr_repair_accept (p : Platform) (v : Int) (s : Store)
    (hviol : (AllocatePrefetchInstrConstraintFunc p v (strictMode s)).1 =
      JVMFlag.Error.VIOLATES_CONSTRAINT) :
    (AllocatePrefetchInstrConstraintFunc p v (repairMode s)).1 =
      JVMFlag.Error.SUCCESS ∧
    (AllocatePrefetchInstrConstraintFunc p
      ((AllocatePrefetchInstrConstraintFunc p v
        (repairMode s)).2.AllocatePrefetchInstr)
      (strictMode (AllocatePrefetchInstrConstraintFunc p v
        (repairMode s)).2)).1 = JVMFlag.Error.SUCCESS := by
  by_cases hx : p.x86 = true
  · by_cases hneg : v < 0
    · constructor
      · simp [AllocatePrefetchInstrConstraintFunc, repairMode, hx, hneg]
      · simp [AllocatePrefetchInstrConstraintFunc, repairMode, strictMode, hx,
          hneg]
    · by_cases hbig : (3 : Int) < v
      · constructor
        · simp [AllocatePrefetchInstrConstraintFunc, repairMode, hx, hneg, hbig]
        · simp [AllocatePrefetchInstrConstraintFunc, repairMode, strictMode, hx,
            hneg, hbig]
      · exfalso
        simp [AllocatePrefetchInstrConstraintFunc, strictMode, hx, hneg, hbig]
          at hviol
  · by_cases hneg : v < 0
    · constructor
      · simp [AllocatePrefetchInstrConstraintFunc, repairMode, hx, hneg]
      · simp [AllocatePrefetchInstrConstraintFunc, repairMode, strictMode, hx,
          hneg, max_intx]
    · by_cases hbig : (9223372036854775807 : Int) < v
      · constructor
        · simp [AllocatePrefetchInstrConstraintFunc, repairMode, hx, hneg,
            hbig, max_intx]
        · simp [AllocatePrefetchInstrConstraintFunc, repairMode, strictMode, hx,
            hneg, hbig, max_intx]
      · exfalso
        simp [AllocatePrefetchInstrConstraintFunc, strictMode, hx, hneg, hbig,
          max_intx] at hviol

theorem ct_repair_accept (p : Platform) (v : Int) (s : Store)
    (hviol : (CompileThresholdConstraintFunc p v (strictMode s)).1 =
      JVMFlag.Error.VIOLATES_CONSTRAINT) :
    (CompileThresholdConstraintFunc p v (repairMode s)).1 =
      JVMFlag.Error.SUCCESS ∧
    (CompileThresholdConstraintFunc p
      ((CompileThresholdConstraintFunc p v (repairMode s)).2.CompileThreshold)
      (strictMode (CompileThresholdConstraintFunc p v (repairMode s)).2)).1 =
      JVMFlag.Error.SUCCESS := by
  have h0 := intMaxShifted_nonneg p.countShift
  have h1 : ¬ intMaxShifted p.countShift < 0 := by omega
  by_cases hneg : v < 0
  · constructor
    · simp [CompileThresholdConstraintFunc, repairMode, hneg]
    · simp [CompileThresholdConstraintFunc, repairMode, strictMode, hneg, h1]
  · by_cases hbig : intMaxShifted p.countShift < v
    · constructor
      · simp [CompileThresholdConstraintFunc, repairMode, hneg, hbig]
      · simp [CompileThresholdConstraintFunc, repairMode, strictMode, hneg,
          hbig, h1]
    · exfalso
      simp [CompileThresholdConstraintFunc, strictMode, hneg, hbig] at hviol

theorem nlff_repair_accept (v : Int) (s : Store) (hm : 0 ≤ s.MaxNodeLimit)
    (hviol : (NodeLimitFudgeFactorConstraintFunc v (strictMode s)).1 =
      JVMFlag.Error.VIOLATES_CONSTRAINT) :
    (NodeLimitFudgeFactorConstraintFunc v (repairMode s)).1 =
      JVMFlag.Error.SUCCESS ∧
    (NodeLimitFudgeFactorConstraintFunc
      ((NodeLimitFudgeFactorConstraintFunc v
        (repairMode s)).2.NodeLimitFudgeFactor)
      (strictMode (NodeLimitFudgeFactorConstraintFunc v
        (repairMode s)).2)).1 = JVMFlag.Error.SUCCESS := by
  have hle : (s.MaxNodeLimit * 2).tdiv 100 ≤ (s.MaxNodeLimit * 40).tdiv 100 :=
    tdiv_le_tdiv_of_mul_le (by omega) (by omega)
  by_cases hlo : v < (s.MaxNodeLimit * 2).tdiv 100
  · have h1 : ¬ (s.MaxNodeLimit * 2).tdiv 100 <
        (s.MaxNodeLimit * 2).tdiv 100 := by omega
    have h2 : ¬ (s.MaxNodeLimit * 40).tdiv 100 <
        (s.MaxNodeLimit * 2).tdiv 100 := by omega
    constructor
    · simp [NodeLimitFudgeFactorConstraintFunc, repairMode, hlo]
    · simp [NodeLimitFudgeFactorConstraintFunc, repairMode, strictMode, hlo,
        h1, h2]
  · by_cases hhi : (s.MaxNodeLimit * 40).tdiv 100 < v
    · have h1 : ¬ (s.MaxNodeLimit * 40).tdiv 100 <
          (s.MaxNodeLimit * 2).tdiv 100 := by omega
      have h2 : ¬ (s.MaxNodeLimit * 40).tdiv 100 <
          (s.MaxNodeLimit * 40).tdiv 100 := by omega
      constructor
      · simp [NodeLimitFudgeFactorConstraintFunc, repairMode, hlo, hhi]
      · simp [NodeLimitFudgeFactorConstraintFunc, repairMode, strictMode, hlo,
          hhi, h1, h2]
    · exfalso
      simp [NodeLimitFudgeFactorConstraintFunc, strictMode, hlo, hhi] at hviol

theorem apss_repair_accept (p : Platform) (v : Int) (s : Store)
    (hviol : (AllocatePrefetchStepSizeConstraintFunc p v (strictMode s)).1 =
      JVMFlag.Error.VIOLATES_CONSTRAINT) :
    (AllocatePrefetchStepSizeConstraintFunc p v (repairMode s)).1 =
      JVMFlag.Error.SUCCESS ∧
    (AllocatePrefetchStepSizeConstraintFunc p
      ((AllocatePrefetchStepSizeConstraintFunc p v
        (repairMode s)).2.AllocatePrefetchStepSize)
      (strictMode (AllocatePrefetchStepSizeConstraintFunc p v
        (repairMode s)).2)).1 = JVMFlag.Error.SUCCESS := by
  by_cases hstyle : s.AllocatePrefetchStyle = 3
  · by_cases hmod : v.tmod p.wordSize = 0
    · exfalso
      simp [AllocatePrefetchStepSizeConstraintFunc, strictMode, hstyle, hmod]
        at hviol
    · have k1 : (v - v.tmod p.wordSize).tmod p.wordSize = 0 := by
        have h := Int.tdiv_add_tmod v p.wordSize
        have h2 : v - v.tmod p.wordSize = p.wordSize * (v.tdiv p.wordSize) := by
          linarith
        rw [h2, Int.mul_tmod_right]
      have k2 : p.wordSize.tmod p.wordSize = 0 := Int.tmod_self
      constructor
      · simp [AllocatePrefetchStepSizeConstraintFunc, repairMode, hstyle, hmod]
      · by_cases hz : v - v.tmod p.wordSize = 0
        · simp [AllocatePrefetchStepSizeConstraintFunc, repairMode, strictMode,
            hstyle, hmod, hz, k2]
        · simp [AllocatePrefetchStepSizeConstraintFunc, repairMode, strictMode,
            hstyle, hmod, hz, k1]
  · exfalso
    simp [AllocatePrefetchStepSizeConstraintFunc, strictMode, hstyle] at hviol

theorem osrp_repair_accept (p : Platform) (v : Int) (s : Store)
    (hlo : 0 ≤ s.CompileThreshold)
    (hhi : s.CompileThreshold ≤ intMaxShifted p.countShift)
    (hviol : (OnStackReplacePercentageConstraintFunc p v (strictMode s)).1 =
      JVMFlag.Error.VIOLATES_CONSTRAINT) :
    (OnStackReplacePercentageConstraintFunc p v (repairMode s)).1 =
      JVMFlag.Error.SUCCESS ∧
    (OnStackReplacePercentageConstraintFunc p
      ((OnStackReplacePercentageConstraintFunc p v
        (repairMode s)).2.OnStackReplacePercentage)
      (strictMode (OnStackReplacePercentageConstraintFunc p v
        (repairMode s)).2)).1 = JVMFlag.Error.SUCCESS := by
  have hb := osrp_lower_le_upper p s hlo
  have el : osrpLowerBoundSpec (repairMode s) = osrpLowerBoundSpec s := rfl
  have eu : osrpUpperBoundSpec p (repairMode s) = osrpUpperBoundSpec p s := rfl
  have els : osrpLowerBoundSpec (strictMode s) = osrpLowerBoundSpec s := rfl
  have eus : osrpUpperBoundSpec p (strictMode s) = osrpUpperBoundSpec p s := rfl
  rw [osrp_eval_valid_ct p v (strictMode s) hlo hhi, els, eus] at hviol
  rw [osrp_eval_valid_ct p v (repairMode s) hlo hhi, el, eu]
  have hrm : (repairMode s).VerifyFlagConstraints = true := rfl
  by_cases h1 : v < osrpLowerBoundSpec s
  · rw [if_pos h1, if_pos hrm]
    refine ⟨rfl, ?_⟩
    dsimp only
    rw [osrp_eval_valid_ct p (osrpLowerBoundSpec s)
      (strictMode { repairMode s with
        OnStackReplacePercentage := osrpLowerBoundSpec s }) hlo hhi]
    have e2 : osrpLowerBoundSpec (strictMode
        { repairMode s with
            OnStackReplacePercentage := osrpLowerBoundSpec s }) =
        osrpLowerBoundSpec s := rfl
    have e3 : osrpUpperBoundSpec p (strictMode
        { repairMode s with
            OnStackReplacePercentage := osrpLowerBoundSpec s }) =
        osrpUpperBoundSpec p s := rfl
    rw [e2, e3]
    rw [if_neg (by omega), if_neg (by omega)]
  · rw [if_neg h1]
    by_cases h2 : v > osrpUpperBoundSpec p s
    · rw [if_pos h2, if_pos hrm]
      refine ⟨rfl, ?_⟩
      dsimp only
      rw [osrp_eval_valid_ct p (osrpUpperBoundSpec p s)
        (strictMode { repairMode s with
          OnStackReplacePercentage := osrpUpperBoundSpec p s }) hlo hhi]
      have e2 : osrpLowerBoundSpec (strictMode
          { repairMode s with
              OnStackReplacePercentage := osrpUpperBoundSpec p s }) =
          osrpLowerBoundSpec s := rfl
      have e3 : osrpUpperBoundSpec p (strictMode
          { repairMode s with
              OnStackReplacePercentage := osrpUpperBoundSpec p s }) =
          osrpUpperBoundSpec p s := rfl
      rw [e2, e3]
      rw [if_neg (by omega), if_neg (by omega)]
    · exfalso
      rw [if_neg h1, if_neg h2] at hviol
      simp at hviol

theorem minimum_alignment_pow2 (p : Platform) :
    is_power_of_2 (minimum_alignment p) = true := by
  unfold minimum_alignment
  split_ifs <;> decide

theorem oploop_repair_accept (p : Platform) (v : Int) (s : Store)
    (ha : p.addrUnit = 1)
    (hcea : is_power_of_2 s.CodeEntryAlignment = true)
    (_hv : 0 < v)
    (hviol : (OptoLoopAlignmentConstraintFunc p v (strictMode s)).1 =
      JVMFlag.Error.VIOLATES_CONSTRAINT) :
    (OptoLoopAlignmentConstraintFunc p v (repairMode s)).1 =
      JVMFlag.Error.SUCCESS ∧
    (OptoLoopAlignmentConstraintFunc p
      ((OptoLoopAlignmentConstraintFunc p v (repairMode s)).2.OptoLoopAlignment)
      (strictMode (OptoLoopAlignmentConstraintFunc p v
        (repairMode s)).2)).1 = JVMFlag.Error.SUCCESS := by
  have htm : ∀ x : Int, x.tmod p.addrUnit = 0 := fun x => by
    rw [ha]; exact Int.tmod_one x
  by_cases hp2 : is_power_of_2 v = true
  · by_cases hc : v > s.CodeEntryAlignment
    · constructor
      · simp [OptoLoopAlignmentConstraintFunc, repairMode, hp2, htm, hc]
      · simp [OptoLoopAlignmentConstraintFunc, repairMode, strictMode, hp2,
          htm, hc, hcea]
    · exfalso
      simp [OptoLoopAlignmentConstraintFunc, strictMode, hp2, htm, hc] at hviol
  · by_cases hc : round_down_power_of_2 v > s.CodeEntryAlignment
    · constructor
      · simp [OptoLoopAlignmentConstraintFunc, repairMode, hp2, htm, hc]
      · simp [OptoLoopAlignmentConstraintFunc, repairMode, strictMode, hp2,
          htm, hc, hcea]
    · constructor
      · simp [OptoLoopAlignmentConstraintFunc, repairMode, hp2, htm, hc]
      · simp [OptoLoopAlignmentConstraintFunc, repairMode, strictMode, hp2,
          htm, hc, hcea, is_power_of_2_round_down]

theorem intent_repair_accept (p : Platform) (v : Int) (s : Store)
    (hcea : is_power_of_2 s.CodeEntryAlignment = true)
    (hma : minimum_alignment p ≤ s.CodeEntryAlignment)
    (hv : 0 < v) (hvle : v ≤ s.CodeEntryAlignment)
    (hviol : (InteriorEntryAlignmentConstraintFunc p v (strictMode s)).1 =
      JVMFlag.Error.VIOLATES_CONSTRAINT) :
    (InteriorEntryAlignmentConstraintFunc p v (repairMode s)).1 =
      JVMFlag.Error.SUCCESS ∧
    (InteriorEntryAlignmentConstraintFunc p
      ((InteriorEntryAlignmentConstraintFunc p v
        (repairMode s)).2.InteriorEntryAlignment)
      (strictMode (InteriorEntryAlignmentConstraintFunc p v
        (repairMode s)).2)).1 = JVMFlag.Error.SUCCESS := by
  have hmp2 := minimum_alignment_pow2 p
  have hnm : ¬ s.CodeEntryAlignment < minimum_alignment p := by omega
  by_cases hc1 : s.InteriorEntryAlignment > s.CodeEntryAlignment
  · constructor
    · simp [InteriorEntryAlignmentConstraintFunc, repairMode, hc1, hcea, hnm]
    · simp [InteriorEntryAlignmentConstraintFunc, repairMode, strictMode, hc1,
        hcea, hnm]
  · by_cases hp2 : is_power_of_2 v = true
    · by_cases hc3 : v < minimum_alignment p
      · constructor
        · simp [InteriorEntryAlignmentConstraintFunc, repairMode, hc1, hp2, hc3]
        · simp [InteriorEntryAlignmentConstraintFunc, repairMode, strictMode,
            hc1, hp2, hc3, hmp2, hnm, hma]
      · exfalso
        simp [InteriorEntryAlignmentConstraintFunc, strictMode, hc1, hp2, hc3]
          at hviol
    · have hle2 : round_down_power_of_2 v ≤ s.CodeEntryAlignment :=
        le_trans (round_down_power_of_2_le hv) hvle
      by_cases hc3 : round_down_power_of_2 v < minimum_alignment p
      · constructor
        · simp [InteriorEntryAlignmentConstraintFunc, repairMode, hc1, hp2, hc3]
        · simp [InteriorEntryAlignmentConstraintFunc, repairMode, strictMode,
            hc1, hp2, hc3, hmp2, hnm, hma]
      · constructor
        · simp [InteriorEntryAlignmentConstraintFunc, repairMode, hc1, hp2, hc3]
        · have hngt : ¬ round_down_power_of_2 v > s.CodeEntryAlignment := by
            omega
          simp [InteriorEntryAlignmentConstraintFunc, repairMode, strictMode,
            hc1, hp2, hc3, hngt, is_power_of_2_round_down]

theorem tpl_strict_accepts (w : Nat) (s : Store)
    (hmode : s.VerifyFlagConstraints = false)
    (h0 : w % 10 ≤ 2) (h1 : w / 10 % 10 ≤ 2) (h2 : w / 10 / 10 % 10 ≤ 2)
    (h3 : w / 10 / 10 / 10 = 0) :
    (TypeProfileLevelConstraintFunc w s).1 = JVMFlag.Error.SUCCESS := by
  simp only [TypeProfileLevelConstraintFunc, hmode, Bool.not_false,
    Bool.and_true, decide_eq_true_eq, Bool.or_eq_true, bne_iff_ne, ne_eq]
  split_ifs <;> first | rfl | omega

theorem tpl_repair_accept (u : Nat) (s : Store)
    (hviol : (TypeProfileLevelConstraintFunc u (strictMode s)).1 =
      JVMFlag.Error.VIOLATES_CONSTRAINT) :
    (TypeProfileLevelConstraintFunc u (repairMode s)).1 =
      JVMFlag.Error.SUCCESS ∧
    (TypeProfileLevelConstraintFunc
      ((TypeProfileLevelConstraintFunc u (repairMode s)).2.1.TypeProfileLevel)
      (strictMode (TypeProfileLevelConstraintFunc u
        (repairMode s)).2.1)).1 = JVMFlag.Error.SUCCESS := by
  have hm : (repairMode s).VerifyFlagConstraints = true := rfl
  constructor
  · simp only [TypeProfileLevelConstraintFunc, hm, Bool.not_true,
      Bool.and_false, Bool.false_eq_true, if_false,
      apply_ite (@Prod.fst JVMFlag.Error (Store × Option Nat)), ite_self]
  · by_cases hrep : u % 10 > 2 ∨ u / 10 % 10 > 2 ∨ u / 10 / 10 % 10 > 2 ∨
        ¬ u / 10 / 10 / 10 = 0
    · have heval : TypeProfileLevelConstraintFunc u (repairMode s) =
          (JVMFlag.Error.SUCCESS,
            { repairMode s with TypeProfileLevel :=
                (if u % 10 > 2 then 2 else u % 10) +
                (if u / 10 % 10 > 2 then 2 else u / 10 % 10) * 10 +
                (if u / 10 / 10 % 10 > 2 then 2 else u / 10 / 10 % 10) * 100 },
            none) := by
        simp only [TypeProfileLevelConstraintFunc, hm, Bool.not_true,
          Bool.and_false, Bool.false_eq_true, if_false, Bool.or_eq_true,
          decide_eq_true_eq, bne_iff_ne, ne_eq]
        rw [if_pos]
        tauto
      rw [heval]
      dsimp only
      apply tpl_strict_accepts _ _ rfl <;> split_ifs <;> omega
    · exfalso
      rw [not_or, not_or, not_or, not_not] at hrep
      obtain ⟨k0, k1, k2, k3⟩ := hrep
      rw [tpl_strict_accepts u (strictMode s) rfl (by omega) (by omega)
        (by omega) k3] at hviol
      simp at hviol

/-- **C1 (counterexample).** The OptoLoopAlignment repair branch can produce
a value that Strict mode rejects: with `CodeEntryAlignment = 10` (itself not
a power of two) and input 16, AutoRepair clamps to 10 and returns `SUCCESS`,
but re-evaluating the produced value 10 under Strict mode with the store
otherwise unchanged is a violation (10 is not a power of two). -/
theorem optoLoop_repair_not_strict_accepted :
    (OptoLoopAlignmentConstraintFunc x64Platform 16
      { repairStore with CodeEntryAlignment := 10 }).1 =
      JVMFlag.Error.SUCCESS ∧
    (OptoLoopAlignmentConstraintFunc x64Platform 16
      { repairStore with CodeEntryAlignment := 10 }).2.OptoLoopAlignment = 10 ∧
    (OptoLoopAlignmentConstraintFunc x64Platform 10
      (strictMode (OptoLoopAlignmentConstraintFunc x64Platform 16
        { repairStore with CodeEntryAlignment := 10 }).2)).1 =
      JVMFlag.Error.VIOLATES_CONSTRAINT := by
  decide

/-- **C1 (amended).** For every rule with a repair branch and every input
whose Strict evaluation is rejected, the value produced by the repair branch
(AutoRepair mode), when re-evaluated by the same rule in Strict mode with
the store otherwise unchanged, is accepted — under the side conditions the
code requires: compilers present for `CICompilerCount`; a valid
`CompileThreshold` in the store for `OnStackReplacePercentage`; positive
inputs, a power-of-two `CodeEntryAlignment` and a byte-granular relocation
unit for `OptoLoopAlignment`; and additionally, for
`InteriorEntryAlignment`, an input and a platform minimum alignment not
above `CodeEntryAlignment`. -/
theorem repair_then_strict_accept (p : Platform) (v : Int) (u : Nat)
    (s : Store) :
    (p.compiler1or2 = true →
      (CICompilerCountConstraintFunc p v (strictMode s)).1 =
        JVMFlag.Error.VIOLATES_CONSTRAINT →
      (CICompilerCountConstraintFunc p v (repairMode s)).1 =
        JVMFlag.Error.SUCCESS ∧
      (CICompilerCountConstraintFunc p
        ((CICompilerCountConstraintFunc p v (repairMode s)).2.CICompilerCount)
        (strictMode (CICompilerCountConstraintFunc p v (repairMode s)).2)).1 =
        JVMFlag.Error.SUCCESS) ∧
    ((AllocatePrefetchDistanceConstraintFunc v (strictMode s)).1 =
        JVMFlag.Error.VIOLATES_CONSTRAINT →
      (AllocatePrefetchDistanceConstraintFunc v (repairMode s)).1 =
        JVMFlag.Error.SUCCESS ∧
      (AllocatePrefetchDistanceConstraintFunc
        ((AllocatePrefetchDistanceConstraintFunc v
          (repairMode s)).2.AllocatePrefetchDistance)
        (strictMode (AllocatePrefetchDistanceConstraintFunc v
          (repairMode s)).2)).1 = JVMFlag.Error.SUCCESS) ∧
    ((AllocatePrefetchStepSizeConstraintFunc p v (strictMode s)).1 =
        JVMFlag.Error.VIOLATES_CONSTRAINT →
      (AllocatePrefetchStepSizeConstraintFunc p v (repairMode s)).1 =
        JVMFlag.Error.SUCCESS ∧
      (AllocatePrefetchStepSizeConstraintFunc p
        ((AllocatePrefetchStepSizeConstraintFunc p v
          (repairMode s)).2.AllocatePrefetchStepSize)
        (strictMode (AllocatePrefetchStepSizeConstraintFunc p v
          (repairMode s)).2)).1 = JVMFlag.Error.SUCCESS) ∧
    ((AllocatePrefetchInstrConstraintFunc p v (strictMode s)).1 =
        JVMFlag.Error.VIOLATES_CONSTRAINT →
      (AllocatePrefetchInstrConstraintFunc p v (repairMode s)).1 =
        JVMFlag.Error.SUCCESS ∧
      (AllocatePrefetchInstrConstraintFunc p
        ((AllocatePrefetchInstrConstraintFunc p v
          (repairMode s)).2.AllocatePrefetchInstr)
        (strictMode (AllocatePrefetchInstrConstraintFunc p v
          (repairMode s)).2)).1 = JVMFlag.Error.SUCCESS) ∧
    ((CompileThresholdConstraintFunc p v (strictMode s)).1 =
        JVMFlag.Error.VIOLATES_CONSTRAINT →
      (CompileThresholdConstraintFunc p v (repairMode s)).1 =
        JVMFlag.Error.SUCCESS ∧
      (CompileThresholdConstraintFunc p
        ((CompileThresholdConstraintFunc p v (repairMode s)).2.CompileThreshold)
        (strictMode (CompileThresholdConstraintFunc p v (repairMode s)).2)).1 =
        JVMFlag.Error.SUCCESS) ∧
    (0 ≤ s.CompileThreshold →
      s.CompileThreshold ≤ intMaxShifted p.countShift →
      (OnStackReplacePercentageConstraintFunc p v (strictMode s)).1 =
        JVMFlag.Error.VIOLATES_CONSTRAINT →
      (OnStackReplacePercentageConstraintFunc p v (repairMode s)).1 =
        JVMFlag.Error.SUCCESS ∧
      (OnStackReplacePercentageConstraintFunc p
        ((OnStackReplacePercentageConstraintFunc p v
          (repairMode s)).2.OnStackReplacePercentage)
        (strictMode (OnStackReplacePercentageConstraintFunc p v
          (repairMode s)).2)).1 = JVMFlag.Error.SUCCESS) ∧
    (p.addrUnit = 1 → is_power_of_2 s.CodeEntryAlignment = true → 0 < v →
      (OptoLoopAlignmentConstraintFunc p v (strictMode s)).1 =
        JVMFlag.Error.VIOLATES_CONSTRAINT →
      (OptoLoopAlignmentConstraintFunc p v (repairMode s)).1 =
        JVMFlag.Error.SUCCESS ∧
      (OptoLoopAlignmentConstraintFunc p
        ((OptoLoopAlignmentConstraintFunc p v
          (repairMode s)).2.OptoLoopAlignment)
        (strictMode (OptoLoopAlignmentConstraintFunc p v
          (repairMode s)).2)).1 = JVMFlag.Error.SUCCESS) ∧
    (is_power_of_2 s.CodeEntryAlignment = true →
      minimum_alignment p ≤ s.CodeEntryAlignment → 0 < v →
      v ≤ s.CodeEntryAlignment →
      (InteriorEntryAlignmentConstraintFunc p v (strictMode s)).1 =
        JVMFlag.Error.VIOLATES_CONSTRAINT →
      (InteriorEntryAlignmentConstraintFunc p v (repairMode s)).1 =
        JVMFlag.Error.SUCCESS ∧
      (InteriorEntryAlignmentConstraintFunc p
        ((InteriorEntryAlignmentConstraintFunc p v
          (repairMode s)).2.InteriorEntryAlignment)
        (strictMode (InteriorEntryAlignmentConstraintFunc p v
          (repairMode s)).2)).1 = JVMFlag.Error.SUCCESS) ∧
    (0 ≤ s.MaxNodeLimit →
      (NodeLimitFudgeFactorConstraintFunc v (strictMode s)).1 =
        JVMFlag.Error.VIOLATES_CONSTRAINT →
      (NodeLimitFudgeFactorConstraintFunc v (repairMode s)).1 =
        JVMFlag.Error.SUCCESS ∧
      (NodeLimitFudgeFactorConstraintFunc
        ((NodeLimitFudgeFactorConstraintFunc v
          (repairMode s)).2.NodeLimitFudgeFactor)
        (strictMode (NodeLimitFudgeFactorConstraintFunc v
          (repairMode s)).2)).1 = JVMFlag.Error.SUCCESS) ∧
    ((TypeProfileLevelConstraintFunc u (strictMode s)).1 =
        JVMFlag.Error.VIOLATES_CONSTRAINT →
      (TypeProfileLevelConstraintFunc u (repairMode s)).1 =
        JVMFlag.Error.SUCCESS ∧
      (TypeProfileLevelConstraintFunc
        ((TypeProfileLevelConstraintFunc u
          (repairMode s)).2.1.TypeProfileLevel)
        (strictMode (TypeProfileLevelConstraintFunc u
          (repairMode s)).2.1)).1 = JVMFlag.Error.SUCCESS) :=
  ⟨fun h1 h2 => cicc_repair_accept p v s h1 h2,
   fun h => apd_repair_accept v s h,
   fun h => apss_repair_accept p v s h,
   fun h => apinstr_repair_accept p v s h,
   fun h => ct_repair_accept p v s h,
   fun h1 h2 h3 => osrp_repair_accept p v s h1 h2 h3,
   fun h1 h2 h3 h4 => oploop_repair_accept p v s h1 h2 h3 h4,
   fun h1 h2 h3 h4 h5 => intent_repair_accept p v s h1 h2 h3 h4 h5,
   fun h1 h2 => nlff_repair_accept v s h1 h2,
   fun h => tpl_repair_accept u s h⟩

/-- Closed instantiation of `repair_then_strict_accept`: `CICompilerCount`
input 1 under a tiered configuration is rejected in Strict mode, repaired
(to 2) in AutoRepair mode, and the repaired value passes Strict mode. -/
theorem repair_then_strict_accept_witness :
    (CICompilerCountConstraintFunc x64Platform 1 (repairMode baseStore)).1 =
      JVMFlag.Error.SUCCESS ∧
    (CICompilerCountConstraintFunc x64Platform
      ((CICompilerCountConstraintFunc x64Platform 1
        (repairMode baseStore)).2.CICompilerCount)
      (strictMode (CICompilerCountConstraintFunc x64Platform 1
        (repairMode baseStore)).2)).1 = JVMFlag.Error.SUCCESS :=
  (repair_then_strict_accept x64Platform 1 0 baseStore).1 (by decide) (by decide)
